import Mathlib

/-! ads-mutt-tools: the two mutt index-line filters

Shallow embedding of `ads-mutt-index-format-custom2.go` (the extended variant)
and `mutt-msg-sender-and-local-datetime2.go` (the simple variant).

A Go string is modelled by the list of its code points (`GoString`); the
argument strings are taken to be well-formed UTF-8.  `utf8.RuneCountInString`
is then the length of the list and `len` the sum of the encoded widths.

Both regular expressions are concatenations of character classes with a
repetition range; some stretches are capture groups.  `matchAtoms` is the
leftmost-first (backtracking, greedy) matcher for such a concatenation, which
is the submatch semantics of Go's `regexp` package.
-/

set_option autoImplicit false

/-- Go string, seen as the sequence of its code points. -/
abbrev GoString := List Char

/-! ## Library functions used by the programs -/

/-- Encoded width of a code point, as `utf8.RuneLen`. -/
def RuneLen (c : Char) : Nat :=
  if c.toNat < 0x80 then 1
  else if c.toNat < 0x800 then 2
  else if c.toNat < 0x10000 then 3
  else 4

/-- Go builtin `len` on a string: the number of bytes. -/
def len (s : GoString) : Nat := (s.map RuneLen).sum

/-- Go `utf8.RuneCountInString`. -/
def RuneCountInString (s : GoString) : Nat := s.length

/-- Go `unicode.IsSpace`: the white space of `strings.TrimSpace`. -/
def unicodeIsSpace (c : Char) : Bool :=
  let n := c.toNat
  (9 ≤ n && n ≤ 13) || n == 0x20 || n == 0x85 || n == 0xA0 || n == 0x1680 ||
  (0x2000 ≤ n && n ≤ 0x200A) || n == 0x2028 || n == 0x2029 || n == 0x202F ||
  n == 0x205F || n == 0x3000

/-- Go `strings.TrimSpace`: leading and trailing white space removed. -/
def TrimSpace (s : GoString) : GoString :=
  ((s.dropWhile unicodeIsSpace).reverse.dropWhile unicodeIsSpace).reverse

/-- What `fmt.Sprintf` writes for the verb `%*s` given the width `w` and the
empty string: `|w|` spaces (a negative width asks for left justification of
the same width).  `fmt` refuses an explicit width above `10^6` and writes
`%!(BADWIDTH)` instead; that case needs an argument string of more than a
million code points and is left out of the model. -/
def padEmpty (w : Int) : GoString := List.replicate w.natAbs ' '

/-- Go `fmt.Println` of one string: the string and a newline. -/
def Println (s : GoString) : GoString := s ++ ['\n']

/-! ## Regular expressions -/

/-- POSIX class `[[:space:]]` of Go's regexp syntax: `[\t\n\v\f\r ]`. -/
def clsSpace (c : Char) : Bool := (9 ≤ c.toNat && c.toNat ≤ 13) || c.toNat == 32

/-- POSIX class `[[:digit:]]`: `[0-9]`. -/
def clsDigit (c : Char) : Bool := 48 ≤ c.toNat && c.toNat ≤ 57

/-- Negated class `[^x]`; it matches the newline too. -/
def clsNot (x : Char) (c : Char) : Bool := c != x

/-- The dot, without the `s` flag: any code point but the newline. -/
def clsDot (c : Char) : Bool := c != '\n'

/-- Literal character. -/
def clsLit (x : Char) (c : Char) : Bool := c == x

/-- One item of a concatenation: a character class repeated between `lo` and
`hi` times (`hi = none`: no upper limit), greedily. -/
structure Atom where
  cls : Char → Bool
  lo : Nat
  hi : Option Nat

/-- Class taken exactly once. -/
def Atom.one (p : Char → Bool) : Atom := ⟨p, 1, some 1⟩
/-- Literal character. -/
def Atom.lit (x : Char) : Atom := ⟨clsLit x, 1, some 1⟩
/-- Repetition `{n}`. -/
def Atom.exactly (p : Char → Bool) (n : Nat) : Atom := ⟨p, n, some n⟩
/-- Repetition `{lo,hi}`. -/
def Atom.range (p : Char → Bool) (lo hi : Nat) : Atom := ⟨p, lo, some hi⟩
/-- Repetition `{1,}`. -/
def Atom.plus (p : Char → Bool) : Atom := ⟨p, 1, none⟩
/-- Repetition `*`. -/
def Atom.star (p : Char → Bool) : Atom := ⟨p, 0, none⟩

/-- Length of the longest prefix of `s` whose characters are all in `p`. -/
def runLen (p : Char → Bool) : GoString → Nat
  | [] => 0
  | c :: cs => if p c then runLen p cs + 1 else 0

/-- The repetition count a greedy item tries first: the run length, cut at
the upper limit. -/
def capAt (hi : Option Nat) (n : Nat) : Nat :=
  match hi with
  | none => n
  | some h => min h n

/-- Tries `f (lo + d)`, `f (lo + d - 1)`, ..., `f lo` and gives the first
success: the order in which a greedy repetition gives characters back. -/
def tryDown {α : Type} (f : Nat → Option α) (lo : Nat) : Nat → Option α
  | 0 => f lo
  | d + 1 =>
    match f (lo + (d + 1)) with
    | some r => some r
    | none => tryDown f lo d

/-- Leftmost-first match of a concatenation of items at the start of `s`:
the text taken by each item, and the text left over.  With `anchorEnd` the
pattern ends in `$` and nothing may be left over. -/
def matchAtoms (anchorEnd : Bool) : List Atom → GoString → Option (List GoString × GoString)
  | [], s => if anchorEnd && !s.isEmpty then none else some ([], s)
  | a :: as, s =>
    let avail := capAt a.hi (runLen a.cls s)
    if avail < a.lo then none
    else
      tryDown
        (fun k => (matchAtoms anchorEnd as (s.drop k)).map
          (fun r => (s.take k :: r.1, r.2)))
        a.lo (avail - a.lo)

/-- Cuts a list of per-item texts into stretches of the given sizes and
glues each stretch together. -/
def glue : List Nat → List GoString → List GoString
  | [], _ => []
  | n :: ns, segs => (segs.take n).flatten :: glue ns (segs.drop n)

/-- A compiled pattern anchored at the start (`^`): its stretches in order,
each flagged as a capture group or not, and whether it ends in `$`. -/
structure Regexp where
  parts : List (Bool × List Atom)
  anchorEnd : Bool

/-- The texts of the capture groups among the stretches. -/
def captured : List (Bool × List Atom) → List GoString → List GoString
  | (b, _) :: ps, t :: ts => if b then t :: captured ps ts else captured ps ts
  | _, _ => []

/-- Go `(*Regexp).FindStringSubmatch`: the whole match followed by the text
of each capture group, or the empty (nil) slice when there is no match. -/
def Regexp.FindStringSubmatch (re : Regexp) (s : GoString) : List GoString :=
  match matchAtoms re.anchorEnd (re.parts.map Prod.snd).flatten s with
  | none => []
  | some (segs, _) =>
    let texts := glue (re.parts.map (fun p => p.2.length)) segs
    texts.flatten :: captured re.parts texts

/-- The date shape shared by both patterns:
`[[:digit:]]{4}-[[:digit:]]{1,2}-[[:digit:]]{1,2}[[:space:]]{1,}[[:digit:]]{1,2}:[[:digit:]]{1,2}`. -/
def dateAtoms : List Atom :=
  [Atom.exactly clsDigit 4, Atom.lit '-', Atom.range clsDigit 1 2, Atom.lit '-',
   Atom.range clsDigit 1 2, Atom.plus clsSpace, Atom.range clsDigit 1 2, Atom.lit ':',
   Atom.range clsDigit 1 2]

/-- Process result: the exit status with what was written to standard output,
or the run-time panic of an index out of range (nothing on standard output,
the Go runtime ends the process with status 2). -/
inductive Outcome where
  | exit (code : Nat) (stdout : GoString)
  | indexOutOfRange
  deriving DecidableEq, Repr

/-- Text written to standard output. -/
def Outcome.stdout : Outcome → GoString
  | Outcome.exit _ out => out
  | Outcome.indexOutOfRange => []

/-- Exit status of the process. -/
def Outcome.code : Outcome → Nat
  | Outcome.exit c _ => c
  | Outcome.indexOutOfRange => 2

/-! ## ads-mutt-index-format-custom2 -/

namespace AdsMuttIndexFormatCustom2

/-- The pattern `_RE_EXPECTED_PATTERN` of the extended variant. -/
def _RE_EXPECTED_PATTERN : Regexp where
  parts :=
    [ (true, [Atom.star clsSpace, Atom.plus clsDigit, Atom.plus clsSpace, Atom.plus (clsNot '[')]),
      (true, [Atom.one (clsLit '['), Atom.lit 'S', Atom.lit ':']),
      (true, dateAtoms),
      (true, [Atom.lit ':', Atom.range clsDigit 1 2, Atom.one (clsLit ']'), Atom.plus clsSpace]),
      (true, dateAtoms),
      (true, [Atom.lit ':', Atom.range clsDigit 1 2, Atom.plus clsSpace]),
      (false, [Atom.one (clsLit '['), Atom.lit 'L', Atom.lit 'I', Atom.lit 'S', Atom.lit 'T',
               Atom.lit ':']),
      (true, [Atom.star clsSpace, Atom.plus (clsNot ']')]),
      (false, [Atom.one (clsLit ']')]),
      (true, [Atom.plus clsSpace, Atom.star clsDot]) ]
  anchorEnd := false

/-- The array `gl_ignorable_nonlists`. -/
def gl_ignorable_nonlists : List GoString := ["ads".toList]

/-- The date part of the output line (the `if dt_lft == dt_rit` statement of
`main`), from the submatch slice. -/
def datePart (m : List GoString) : GoString :=
  let whatev1 := m.getD 1 []
  let whatev2 := m.getD 2 []
  let dt_lft := m.getD 3 []
  let whatev3 := m.getD 4 []
  let dt_rit := m.getD 5 []
  let whatev4 := m.getD 6 []
  if dt_lft = dt_rit then
    let str_with_olength := whatev2 ++ dt_lft ++ whatev3
    let count_of_needed_spaces : Int := RuneCountInString str_with_olength
    whatev1 ++ padEmpty count_of_needed_spaces ++ dt_rit ++ whatev4
  else
    whatev1 ++ whatev2 ++ dt_lft ++ whatev3 ++ dt_rit ++ whatev4

/-- The loop over `gl_ignorable_nonlists` that computes `keep_listnm`. -/
def keep_listnm (listnm : GoString) : Bool :=
  !(gl_ignorable_nonlists.any (fun one_nonlist => one_nonlist == listnm))

/-- The list-name field of the output line (the statements of `main` from
`needed_listnm_spaces` to the end of `if true == keep_listnm`). -/
def listPart (listnm_raw : GoString) : GoString :=
  let needed_listnm_spaces : Int := 2 + RuneCountInString listnm_raw
  let listnm := TrimSpace listnm_raw
  if keep_listnm listnm then
    let remaining_listnm_spaces : Int := needed_listnm_spaces - len listnm - 2
    ['['] ++ listnm ++ [']'] ++ padEmpty remaining_listnm_spaces
  else
    padEmpty needed_listnm_spaces

/-- The function `main` of the extended variant, on `os.Args`. -/
def main (Args : List GoString) : Outcome :=
  if 2 < Args.length then Outcome.exit 1 []
  else
    match Args.get? 1 with
    | none => Outcome.indexOutOfRange
    | some orig_string =>
      let m := _RE_EXPECTED_PATTERN.FindStringSubmatch orig_string
      if m.length = 0 then Outcome.exit 0 (Println orig_string)
      else
        let listnm_raw := m.getD 7 []
        let whatev5 := m.getD 8 []
        let outp_string := datePart m ++ listPart listnm_raw ++ whatev5
        Outcome.exit 0 (Println outp_string)

end AdsMuttIndexFormatCustom2

/-! ## mutt-msg-sender-and-local-datetime2 -/

namespace MuttMsgSenderAndLocalDatetime2

/-- The pattern `RE_EXPECTED_PATTERN` of the simple variant. -/
def RE_EXPECTED_PATTERN : Regexp where
  parts :=
    [ (true, [Atom.star clsDot, Atom.plus clsSpace]),
      (true, [Atom.one (clsLit '['), Atom.lit 'S', Atom.lit ':']),
      (true, dateAtoms),
      (true, [Atom.lit ':', Atom.range clsDigit 1 2, Atom.one (clsLit ']'), Atom.plus clsSpace]),
      (true, dateAtoms),
      (true, [Atom.lit ':', Atom.range clsDigit 1 2, Atom.star clsDot]) ]
  anchorEnd := true

/-- The function `main` of the simple variant, on `os.Args`. -/
def main (Args : List GoString) : Outcome :=
  match Args.get? 1 with
  | none => Outcome.indexOutOfRange
  | some orig_string =>
    let m := RE_EXPECTED_PATTERN.FindStringSubmatch orig_string
    if m.length = 0 then Outcome.exit 0 (Println orig_string)
    else
      let whatev1 := m.getD 1 []
      let whatev2 := m.getD 2 []
      let dt_lft := m.getD 3 []
      let whatev3 := m.getD 4 []
      let dt_rit := m.getD 5 []
      let whatev4 := m.getD 6 []
      if dt_lft = dt_rit then
        let str_with_olength := whatev2 ++ dt_lft ++ whatev3
        let count_of_needed_spaces : Int := RuneCountInString str_with_olength
        let new_string := whatev1 ++ padEmpty count_of_needed_spaces ++ dt_rit ++ whatev4
        Outcome.exit 0 (Println new_string)
      else
        Outcome.exit 0 (Println orig_string)

end MuttMsgSenderAndLocalDatetime2

/-! ## Soundness of the matcher -/

/-- A text is an instance of an item: all its characters are in the class and
their number is within the repetition range. -/
def AtomOK (a : Atom) (seg : GoString) : Prop :=
  (∀ c ∈ seg, a.cls c = true) ∧ a.lo ≤ seg.length ∧ ∀ h, a.hi = some h → seg.length ≤ h

/-- A text is an instance of a stretch of items. -/
def PartOK (as : List Atom) (t : GoString) : Prop :=
  ∃ segs, List.Forall₂ AtomOK as segs ∧ segs.flatten = t

/-- Two results of the matcher agree up to a relation `R` on characters: both
fail, or both succeed with texts of the same lengths whose characters are
related by `R` position by position. -/
def ResultRel (R : Char → Char → Prop) :
    Option (List GoString × GoString) → Option (List GoString × GoString) → Prop
  | none, none => True
  | some r, some r2 => List.Forall₂ (List.Forall₂ R) r.1 r2.1 ∧ List.Forall₂ R r.2 r2.2
  | _, _ => False

/-- Two characters are the same, or both are digits. -/
def SameOrDigits (c d : Char) : Prop := c = d ∨ (clsDigit c = true ∧ clsDigit d = true)

/-- A character class does not tell apart characters related by `SameOrDigits`. -/
def Respects (a : Atom) : Prop := ∀ c d, SameOrDigits c d → a.cls c = a.cls d

theorem tryDown_some {α : Type} (f : Nat → Option α) (lo : Nat) :
    ∀ (d : Nat) (r : α), tryDown f lo d = some r → ∃ k, lo ≤ k ∧ k ≤ lo + d ∧ f k = some r := by
  intro d
  induction d with
  | zero =>
    intro r h
    exact ⟨lo, le_refl _, by omega, h⟩
  | succ d ih =>
    intro r h
    simp only [tryDown] at h
    cases hf : f (lo + (d + 1)) with
    | some r2 =>
      rw [hf] at h
      exact ⟨lo + (d + 1), by omega, le_refl _, by rw [hf, ← h]⟩
    | none =>
      rw [hf] at h
      obtain ⟨k, h1, h2, h3⟩ := ih r h
      exact ⟨k, h1, by omega, h3⟩

theorem runLen_take (p : Char → Bool) :
    ∀ (s : GoString) (k : Nat), k ≤ runLen p s → ∀ c ∈ s.take k, p c = true := by
  intro s
  induction s with
  | nil => intro k _ c hc; simp at hc
  | cons x xs ih =>
    intro k hk c hc
    cases k with
    | zero => simp at hc
    | succ k =>
      by_cases hx : p x = true
      · simp only [runLen, hx, if_true] at hk
        simp only [List.take_succ_cons, List.mem_cons] at hc
        rcases hc with rfl | hc
        · exact hx
        · exact ih k (by omega) c hc
      · simp [runLen, hx] at hk

theorem runLen_le_length (p : Char → Bool) : ∀ s : GoString, runLen p s ≤ s.length := by
  intro s
  induction s with
  | nil => simp [runLen]
  | cons x xs ih =>
    by_cases hx : p x = true <;> simp [runLen, hx]
    exact ih

theorem capAt_le (hi : Option Nat) (n : Nat) : capAt hi n ≤ n := by
  cases hi <;> simp [capAt]

theorem capAt_le_hi (h n : Nat) : capAt (some h) n ≤ h := by
  simp [capAt]

theorem matchAtoms_sound (e : Bool) :
    ∀ (as : List Atom) (s : GoString) (segs : List GoString) (rest : GoString),
      matchAtoms e as s = some (segs, rest) →
      List.Forall₂ AtomOK as segs ∧ segs.flatten ++ rest = s ∧ (e = true → rest = []) := by
  intro as
  induction as with
  | nil =>
    intro s segs rest h
    simp only [matchAtoms] at h
    split at h
    · exact absurd h (by simp)
    · rename_i hc
      simp only [Option.some.injEq, Prod.mk.injEq] at h
      obtain ⟨rfl, rfl⟩ := h
      refine ⟨List.Forall₂.nil, by simp, ?_⟩
      intro he
      subst he
      cases s with
      | nil => rfl
      | cons x xs => simp at hc
  | cons a as ih =>
    intro s segs rest h
    simp only [matchAtoms] at h
    split at h
    · exact absurd h (by simp)
    · rename_i hlo
      obtain ⟨k, hk1, hk2, hk3⟩ := tryDown_some _ _ _ _ h
      cases hm : matchAtoms e as (List.drop k s) with
      | none => rw [hm] at hk3; simp at hk3
      | some r =>
        rw [hm] at hk3
        simp only [Option.map_some', Option.some.injEq, Prod.mk.injEq] at hk3
        obtain ⟨rfl, rfl⟩ := hk3
        obtain ⟨h1, h2, h3⟩ := ih (List.drop k s) r.1 r.2 (by rw [hm])
        have hcap : k ≤ capAt a.hi (runLen a.cls s) := by omega
        have hrun : k ≤ runLen a.cls s := le_trans hcap (capAt_le _ _)
        have hlen : (List.take k s).length = k := by
          rw [List.length_take]
          exact min_eq_left (le_trans hrun (runLen_le_length _ _))
        refine ⟨List.Forall₂.cons ⟨runLen_take _ s k hrun, by omega, ?_⟩ h1, ?_, h3⟩
        · intro hh hhi
          rw [hhi] at hcap
          have := capAt_le_hi hh (runLen a.cls s)
          omega
        · simp only [List.flatten_cons, List.append_assoc, h2, List.take_append_drop]

theorem forall₂_append_left {α β : Type} (R : α → β → Prop) :
    ∀ (a b : List α) (l : List β), List.Forall₂ R (a ++ b) l →
      List.Forall₂ R a (l.take a.length) ∧ List.Forall₂ R b (l.drop a.length) := by
  intro a
  induction a with
  | nil => intro b l h; exact ⟨by simp, by simpa using h⟩
  | cons x xs ih =>
    intro b l h
    cases h with
    | cons hx hrest =>
      obtain ⟨h1, h2⟩ := ih b _ hrest
      exact ⟨by simpa using List.Forall₂.cons hx h1, by simpa using h2⟩

theorem glue_sound :
    ∀ (ps : List (Bool × List Atom)) (segs : List GoString),
      List.Forall₂ AtomOK (ps.map Prod.snd).flatten segs →
      List.Forall₂ (fun p t => PartOK p.2 t) ps (glue (ps.map (fun p => p.2.length)) segs) ∧
      (glue (ps.map (fun p => p.2.length)) segs).flatten = segs.flatten := by
  intro ps
  induction ps with
  | nil =>
    intro segs h
    simp only [List.map_nil, List.flatten_nil, List.forall₂_nil_left_iff] at h
    subst h
    exact ⟨by simp [glue], by simp [glue]⟩
  | cons p ps ih =>
    intro segs h
    simp only [List.map_cons, List.flatten_cons] at h
    obtain ⟨h1, h2⟩ := forall₂_append_left AtomOK _ _ _ h
    obtain ⟨h3, h4⟩ := ih _ h2
    refine ⟨?_, ?_⟩
    · simp only [List.map_cons, glue]
      exact List.Forall₂.cons ⟨_, h1, rfl⟩ h3
    · simp only [List.map_cons, glue, List.flatten_cons, h4]
      rw [← List.flatten_append, List.take_append_drop]

/-- What a successful `FindStringSubmatch` says about the input: the
stretches of the pattern have instances `texts`, in order, that make up the
start of the input. -/
theorem FindStringSubmatch_sound (re : Regexp) (s : GoString)
    (h : re.FindStringSubmatch s ≠ []) :
    ∃ (segs texts : List GoString) (rest : GoString),
      matchAtoms re.anchorEnd (re.parts.map Prod.snd).flatten s = some (segs, rest) ∧
      List.Forall₂ (fun p t => PartOK p.2 t) re.parts texts ∧
      texts.flatten ++ rest = s ∧ (re.anchorEnd = true → rest = []) ∧
      re.FindStringSubmatch s = texts.flatten :: captured re.parts texts := by
  unfold Regexp.FindStringSubmatch at h ⊢
  cases hm : matchAtoms re.anchorEnd (re.parts.map Prod.snd).flatten s with
  | none => rw [hm] at h; exact absurd rfl h
  | some r =>
    obtain ⟨segs, rest⟩ := r
    obtain ⟨h1, h2, h3⟩ := matchAtoms_sound _ _ _ _ _ hm
    obtain ⟨h4, h5⟩ := glue_sound re.parts segs h1
    exact ⟨segs, _, rest, rfl, h4, by rw [h5, h2], h3, rfl⟩

theorem FindStringSubmatch_nil (re : Regexp) (s : GoString) :
    re.FindStringSubmatch s = [] ↔
      matchAtoms re.anchorEnd (re.parts.map Prod.snd).flatten s = none := by
  unfold Regexp.FindStringSubmatch
  cases hm : matchAtoms re.anchorEnd (re.parts.map Prod.snd).flatten s with
  | none => simp
  | some r => simp

theorem PartOK_mem (as : List Atom) (t : GoString) (h : PartOK as t) :
    ∀ c ∈ t, ∃ a ∈ as, a.cls c = true := by
  obtain ⟨segs, hF, rfl⟩ := h
  induction hF with
  | nil => intro c hc; simp at hc
  | cons hx _ ih =>
    intro c hc
    simp only [List.flatten_cons, List.mem_append] at hc
    rcases hc with hc | hc
    · exact ⟨_, List.mem_cons_self _ _, hx.1 c hc⟩
    · obtain ⟨a, ha, hac⟩ := ih c hc
      exact ⟨a, List.mem_cons_of_mem _ ha, hac⟩

theorem AtomOK_lit (x : Char) (seg : GoString) (h : AtomOK (Atom.lit x) seg) : seg = [x] := by
  obtain ⟨h1, h2, h3⟩ := h
  have h4 := h3 1 rfl
  simp only [Atom.lit] at h1 h2
  match seg, h1, h2, h4 with
  | [c], h1, _, _ =>
    have := h1 c (List.mem_singleton_self c)
    simp only [clsLit, beq_iff_eq] at this
    rw [this]
  | [], _, h2, _ => simp at h2
  | _ :: _ :: _, _, _, h4 => simp at h4

theorem PartOK_lits (cs : GoString) :
    ∀ t : GoString, PartOK (cs.map Atom.lit) t → t = cs := by
  induction cs with
  | nil =>
    intro t h
    obtain ⟨segs, hF, rfl⟩ := h
    simp only [List.map_nil, List.forall₂_nil_left_iff] at hF
    subst hF
    rfl
  | cons x xs ih =>
    intro t h
    obtain ⟨segs, hF, rfl⟩ := h
    simp only [List.map_cons, List.forall₂_cons_left_iff] at hF
    obtain ⟨seg, segs2, h1, h2, rfl⟩ := hF
    rw [List.flatten_cons, AtomOK_lit x seg h1, ih _ ⟨segs2, h2, rfl⟩]
    rfl

theorem PartOK_cons (a : Atom) (as : List Atom) (t : GoString) (h : PartOK (a :: as) t) :
    ∃ seg t2, AtomOK a seg ∧ PartOK as t2 ∧ t = seg ++ t2 := by
  obtain ⟨segs, hF, rfl⟩ := h
  simp only [List.forall₂_cons_left_iff] at hF
  obtain ⟨seg, segs2, h1, h2, rfl⟩ := hF
  exact ⟨seg, _, h1, ⟨segs2, h2, rfl⟩, by simp⟩

theorem tryDown_first {α : Type} (f : Nat → Option α) (lo d : Nat) (r : α)
    (h : f (lo + d) = some r) : tryDown f lo d = some r := by
  cases d with
  | zero => simpa [tryDown] using h
  | succ d => simp only [tryDown, h]

theorem runLen_drop_head (p : Char → Bool) :
    ∀ (s : GoString) (c : Char), (s.drop (runLen p s)).head? = some c → p c = false := by
  intro s
  induction s with
  | nil => intro c h; simp [runLen] at h
  | cons x xs ih =>
    intro c h
    by_cases hx : p x = true
    · simp only [runLen, hx, if_true, List.drop_succ_cons] at h
      exact ih c h
    · simp only [runLen, hx, Bool.false_eq_true, if_false, List.drop_zero, List.head?_cons,
        Option.some.injEq] at h
      subst h
      simpa using hx

/-- When the last item of an unanchored concatenation is an unlimited
repetition, the text left over by a match is empty or starts with a character
outside that item's class: the greedy last item stops only there. -/
theorem matchAtoms_rest (a : Atom) (ha : a.hi = none) :
    ∀ (as : List Atom) (s : GoString) (segs : List GoString) (rest : GoString),
      matchAtoms false (as ++ [a]) s = some (segs, rest) →
      ∀ c, rest.head? = some c → a.cls c = false := by
  intro as
  induction as with
  | nil =>
    intro s segs rest h c hc
    simp only [List.nil_append, matchAtoms, ha, capAt] at h
    split at h
    · exact absurd h (by simp)
    · rename_i hlo
      have hf : (fun k => Option.map (fun r => (List.take k s :: r.1, r.2))
          (if (false && !(List.drop k s).isEmpty) = true then none
            else some (([] : List GoString), List.drop k s)))
          (a.lo + (runLen a.cls s - a.lo))
          = some ([List.take (runLen a.cls s) s], List.drop (runLen a.cls s) s) := by
        have : a.lo + (runLen a.cls s - a.lo) = runLen a.cls s := by omega
        simp [this]
      rw [tryDown_first _ _ _ _ hf] at h
      simp only [Option.some.injEq, Prod.mk.injEq] at h
      obtain ⟨_, rfl⟩ := h
      exact runLen_drop_head _ _ _ hc
  | cons b bs ih =>
    intro s segs rest h c hc
    replace h : matchAtoms false (b :: (bs ++ [a])) s = some (segs, rest) := h
    simp only [matchAtoms] at h
    split at h
    · exact absurd h (by simp)
    · obtain ⟨k, _, _, hk3⟩ := tryDown_some _ _ _ _ h
      cases hm : matchAtoms false (bs ++ [a]) (List.drop k s) with
      | none => rw [hm] at hk3; simp at hk3
      | some r =>
        rw [hm] at hk3
        simp only [Option.map_some', Option.some.injEq, Prod.mk.injEq] at hk3
        obtain ⟨_, rfl⟩ := hk3
        exact ih (List.drop k s) r.1 r.2 (by rw [hm]) c hc

theorem clsDot_false (c : Char) (h : clsDot c = false) : c = '\n' := by
  simpa [clsDot] using h

/-- Shape of a successful match of the extended pattern. -/
theorem custom2_match_shape (s : GoString)
    (h : AdsMuttIndexFormatCustom2._RE_EXPECTED_PATTERN.FindStringSubmatch s ≠ []) :
    ∃ (g1 g2 g3 g4 g5 g6 g7 g8 rest : GoString),
      AdsMuttIndexFormatCustom2._RE_EXPECTED_PATTERN.FindStringSubmatch s =
        [g1 ++ g2 ++ g3 ++ g4 ++ g5 ++ g6 ++ "[LIST:".toList ++ g7 ++ "]".toList ++ g8,
          g1, g2, g3, g4, g5, g6, g7, g8] ∧
      s = g1 ++ g2 ++ g3 ++ g4 ++ g5 ++ g6 ++ "[LIST:".toList ++ g7 ++ "]".toList ++ g8 ++ rest ∧
      PartOK [Atom.star clsSpace, Atom.plus clsDigit, Atom.plus clsSpace,
        Atom.plus (clsNot '[')] g1 ∧
      g2 = "[S:".toList ∧
      PartOK dateAtoms g3 ∧
      PartOK [Atom.lit ':', Atom.range clsDigit 1 2, Atom.lit ']', Atom.plus clsSpace] g4 ∧
      PartOK dateAtoms g5 ∧
      PartOK [Atom.lit ':', Atom.range clsDigit 1 2, Atom.plus clsSpace] g6 ∧
      PartOK [Atom.star clsSpace, Atom.plus (clsNot ']')] g7 ∧
      PartOK [Atom.plus clsSpace, Atom.star clsDot] g8 ∧
      (∀ c, rest.head? = some c → c = '\n') := by
  obtain ⟨segs, texts, rest, hm, hF, hs, _, hr⟩ := FindStringSubmatch_sound _ s h
  have hrest := matchAtoms_rest (Atom.star clsDot) rfl
    ((AdsMuttIndexFormatCustom2._RE_EXPECTED_PATTERN.parts.map Prod.snd).flatten.dropLast)
    s segs rest hm
  simp only [AdsMuttIndexFormatCustom2._RE_EXPECTED_PATTERN, List.forall₂_cons_left_iff,
    List.forall₂_nil_left_iff] at hF
  obtain ⟨g1, _, h1, ⟨g2, _, h2, ⟨g3, _, h3, ⟨g4, _, h4, ⟨g5, _, h5, ⟨g6, _, h6,
    ⟨t7, _, h7, ⟨g7, _, h8, ⟨t9, _, h9, ⟨g8, _, h10, rfl, rfl⟩, rfl⟩, rfl⟩, rfl⟩, rfl⟩,
    rfl⟩, rfl⟩, rfl⟩, rfl⟩, rfl⟩ := hF
  have e2 : g2 = "[S:".toList := PartOK_lits "[S:".toList g2 h2
  have e7 : t7 = "[LIST:".toList := PartOK_lits "[LIST:".toList t7 h7
  have e9 : t9 = "]".toList := PartOK_lits "]".toList t9 h9
  subst e7 e9
  refine ⟨g1, g2, g3, g4, g5, g6, g7, g8, rest, ?_, ?_, h1, e2, h3, h4, h5, h6, h8, h10, ?_⟩
  · rw [hr]
    simp [AdsMuttIndexFormatCustom2._RE_EXPECTED_PATTERN, captured]
  · rw [← hs]
    simp
  · intro c hc
    exact clsDot_false c (hrest c hc)

/-- Shape of a successful match of the simple pattern: the six groups make
up the whole input. -/
theorem simple_match_shape (s : GoString)
    (h : MuttMsgSenderAndLocalDatetime2.RE_EXPECTED_PATTERN.FindStringSubmatch s ≠ []) :
    ∃ (g1 g2 g3 g4 g5 g6 : GoString),
      MuttMsgSenderAndLocalDatetime2.RE_EXPECTED_PATTERN.FindStringSubmatch s =
        [s, g1, g2, g3, g4, g5, g6] ∧
      s = g1 ++ g2 ++ g3 ++ g4 ++ g5 ++ g6 ∧
      PartOK [Atom.star clsDot, Atom.plus clsSpace] g1 ∧
      g2 = "[S:".toList ∧
      PartOK dateAtoms g3 ∧
      PartOK [Atom.lit ':', Atom.range clsDigit 1 2, Atom.lit ']', Atom.plus clsSpace] g4 ∧
      PartOK dateAtoms g5 ∧
      PartOK [Atom.lit ':', Atom.range clsDigit 1 2, Atom.star clsDot] g6 := by
  obtain ⟨segs, texts, rest, hm, hF, hs, he, hr⟩ := FindStringSubmatch_sound _ s h
  have hnil : rest = [] := he rfl
  subst hnil
  simp only [MuttMsgSenderAndLocalDatetime2.RE_EXPECTED_PATTERN, List.forall₂_cons_left_iff,
    List.forall₂_nil_left_iff] at hF
  obtain ⟨g1, _, h1, ⟨g2, _, h2, ⟨g3, _, h3, ⟨g4, _, h4, ⟨g5, _, h5, ⟨g6, _, h6,
    rfl, rfl⟩, rfl⟩, rfl⟩, rfl⟩, rfl⟩, rfl⟩ := hF
  have e2 : g2 = "[S:".toList := PartOK_lits "[S:".toList g2 h2
  have hs2 : s = g1 ++ g2 ++ g3 ++ g4 ++ g5 ++ g6 := by
    rw [← hs]
    simp
  refine ⟨g1, g2, g3, g4, g5, g6, ?_, hs2, h1, e2, h3, h4, h5, h6⟩
  rw [hr]
  simp [MuttMsgSenderAndLocalDatetime2.RE_EXPECTED_PATTERN, captured, hs2]

/-! ## The claims -/

/-- C1: pass-through on structural mismatch, in both variants.  For a single
argument string that the variant's pattern does not match (the submatch slice
is empty), the text written to standard output is exactly the input string
followed by one newline, and the exit code is 0. -/
theorem C1_passthrough_on_mismatch (prog s : GoString) :
    (AdsMuttIndexFormatCustom2._RE_EXPECTED_PATTERN.FindStringSubmatch s = [] →
      AdsMuttIndexFormatCustom2.main [prog, s] = Outcome.exit 0 (s ++ ['\n'])) ∧
    (MuttMsgSenderAndLocalDatetime2.RE_EXPECTED_PATTERN.FindStringSubmatch s = [] →
      MuttMsgSenderAndLocalDatetime2.main [prog, s] = Outcome.exit 0 (s ++ ['\n'])) := by
  constructor
  · intro h
    simp [AdsMuttIndexFormatCustom2.main, h, Println]
  · intro h
    simp [MuttMsgSenderAndLocalDatetime2.main, h, Println]

/-- C1, at a line that lacks the `[S:` tag but has everything else. -/
theorem C1_passthrough_on_mismatch_witness :
    AdsMuttIndexFormatCustom2._RE_EXPECTED_PATTERN.FindStringSubmatch
        "5 N  2015-10-26 12:55:52]  2015-10-26 12:55:52  [LIST: ads ]  x".toList = [] ∧
    MuttMsgSenderAndLocalDatetime2.RE_EXPECTED_PATTERN.FindStringSubmatch
        "5 N  2015-10-26 12:55:52]  2015-10-26 12:55:52  x".toList = [] ∧
    AdsMuttIndexFormatCustom2.main ["ads-mutt-index-format-custom2".toList,
        "5 N  2015-10-26 12:55:52]  2015-10-26 12:55:52  [LIST: ads ]  x".toList] =
      Outcome.exit 0 ("5 N  2015-10-26 12:55:52]  2015-10-26 12:55:52  [LIST: ads ]  x".toList
        ++ ['\n']) ∧
    MuttMsgSenderAndLocalDatetime2.main ["mutt-msg-sender-and-local-datetime2".toList,
        "5 N  2015-10-26 12:55:52]  2015-10-26 12:55:52  x".toList] =
      Outcome.exit 0 ("5 N  2015-10-26 12:55:52]  2015-10-26 12:55:52  x".toList ++ ['\n']) :=
  ⟨by decide, by decide,
   (C1_passthrough_on_mismatch _ _).1 (by decide),
   (C1_passthrough_on_mismatch _ _).2 (by decide)⟩

/-- C9: usage error on excess arguments in the extended variant.  Every
invocation with two or more positional arguments (`len(os.Args) > 2`) exits
with code 1 and writes nothing to standard output. -/
theorem C9_excess_arguments (Args : List GoString) (h : 2 < Args.length) :
    AdsMuttIndexFormatCustom2.main Args = Outcome.exit 1 [] ∧
    (AdsMuttIndexFormatCustom2.main Args).code = 1 ∧
    (AdsMuttIndexFormatCustom2.main Args).stdout = [] := by
  simp [AdsMuttIndexFormatCustom2.main, h, Outcome.code, Outcome.stdout]

/-- C9, at an invocation with two positional arguments, the first of which
would match the pattern. -/
theorem C9_excess_arguments_witness :
    2 < ["ads-mutt-index-format-custom2".toList,
          "5 N [S:2015-10-26 12:55:52] 2015-10-26 12:55:52 [LIST: ads ] x y".toList,
          "extra".toList].length ∧
    AdsMuttIndexFormatCustom2.main ["ads-mutt-index-format-custom2".toList,
        "5 N [S:2015-10-26 12:55:52] 2015-10-26 12:55:52 [LIST: ads ] x y".toList,
        "extra".toList] = Outcome.exit 1 [] :=
  ⟨by decide, (C9_excess_arguments _ (by decide)).1⟩

/-- C10: an invocation without a positional argument (`os.Args` holds only
the program name).  Neither variant ends with the usage error: in the extended
variant the guard `2 < len(os.Args)` is false, the simple variant has no guard,
and both reach `os.Args[1]` with the index out of range. -/
theorem C10_missing_argument_panics (prog : GoString) :
    AdsMuttIndexFormatCustom2.main [prog] = Outcome.indexOutOfRange ∧
    MuttMsgSenderAndLocalDatetime2.main [prog] = Outcome.indexOutOfRange ∧
    (AdsMuttIndexFormatCustom2.main [prog]).code ≠ 1 ∧
    (MuttMsgSenderAndLocalDatetime2.main [prog]).code ≠ 1 := by
  simp [AdsMuttIndexFormatCustom2.main, MuttMsgSenderAndLocalDatetime2.main, Outcome.code]

theorem padEmpty_ofNat (n : Nat) : padEmpty (n : Int) = List.replicate n ' ' := by
  simp [padEmpty]

theorem custom2_main_of_match (prog s : GoString)
    (h : AdsMuttIndexFormatCustom2._RE_EXPECTED_PATTERN.FindStringSubmatch s ≠ []) :
    AdsMuttIndexFormatCustom2.main [prog, s] =
      Outcome.exit 0
        (AdsMuttIndexFormatCustom2.datePart
            (AdsMuttIndexFormatCustom2._RE_EXPECTED_PATTERN.FindStringSubmatch s) ++
          AdsMuttIndexFormatCustom2.listPart
            ((AdsMuttIndexFormatCustom2._RE_EXPECTED_PATTERN.FindStringSubmatch s).getD 7 []) ++
          (AdsMuttIndexFormatCustom2._RE_EXPECTED_PATTERN.FindStringSubmatch s).getD 8 [] ++
          ['\n']) := by
  have hl : (AdsMuttIndexFormatCustom2._RE_EXPECTED_PATTERN.FindStringSubmatch s).length ≠ 0 := by
    simpa using h
  simp [AdsMuttIndexFormatCustom2.main, hl, Println]

/-- C2: date suppression in the extended variant.  For a matching input whose
sender-date value (group 3) is equal to the local-date value (group 5), the
output is group 1, then as many spaces as the sender-date chunk
`[S:` + group 3 + group 4 has code points, then groups 5 and 6, then the
list-name field, the rest of the line and the newline; group 2 is `[S:` and
groups 1 to 6 are the start of the input. -/
theorem C2_date_suppression (prog s : GoString)
    (hm : AdsMuttIndexFormatCustom2._RE_EXPECTED_PATTERN.FindStringSubmatch s ≠ [])
    (heq : (AdsMuttIndexFormatCustom2._RE_EXPECTED_PATTERN.FindStringSubmatch s).getD 3 [] =
      (AdsMuttIndexFormatCustom2._RE_EXPECTED_PATTERN.FindStringSubmatch s).getD 5 []) :
    ∃ g1 g3 g4 g5 g6 g7 g8 u : GoString,
      AdsMuttIndexFormatCustom2._RE_EXPECTED_PATTERN.FindStringSubmatch s =
        [g1 ++ "[S:".toList ++ g3 ++ g4 ++ g5 ++ g6 ++ "[LIST:".toList ++ g7 ++ "]".toList ++ g8,
          g1, "[S:".toList, g3, g4, g5, g6, g7, g8] ∧
      s = g1 ++ "[S:".toList ++ g3 ++ g4 ++ g5 ++ g6 ++ u ∧
      AdsMuttIndexFormatCustom2.main [prog, s] =
        Outcome.exit 0
          (g1 ++ List.replicate ("[S:".toList ++ g3 ++ g4).length ' ' ++ g5 ++ g6 ++
            (AdsMuttIndexFormatCustom2.listPart g7 ++ g8 ++ ['\n'])) := by
  obtain ⟨g1, g2, g3, g4, g5, g6, g7, g8, rest, hF, hs, _, e2, _⟩ := custom2_match_shape s hm
  subst e2
  refine ⟨g1, g3, g4, g5, g6, g7, g8, "[LIST:".toList ++ g7 ++ "]".toList ++ g8 ++ rest,
    hF, ?_, ?_⟩
  · rw [hs]; simp
  · rw [custom2_main_of_match prog s hm]
    rw [hF] at heq ⊢
    simp only [List.getD_cons_succ, List.getD_cons_zero] at heq
    simp only [AdsMuttIndexFormatCustom2.datePart, List.getD_cons_succ, List.getD_cons_zero,
      heq, if_true, RuneCountInString, padEmpty_ofNat]
    simp

/-- C2, at a short line whose dates agree to the minute. -/
theorem C2_date_suppression_witness :
    AdsMuttIndexFormatCustom2._RE_EXPECTED_PATTERN.FindStringSubmatch
        "5 N [S:2015-10-26 12:55:52] 2015-10-26 12:55:07 [LIST: dev ] x y".toList ≠ [] ∧
    AdsMuttIndexFormatCustom2.main ["ads-mutt-index-format-custom2".toList,
        "5 N [S:2015-10-26 12:55:52] 2015-10-26 12:55:07 [LIST: dev ] x y".toList] =
      Outcome.exit 0 "5 N                         2015-10-26 12:55:07 [dev]   x y\n".toList ∧
    ∃ g1 g3 g4 g5 g6 g7 g8 u : GoString,
      AdsMuttIndexFormatCustom2._RE_EXPECTED_PATTERN.FindStringSubmatch
          "5 N [S:2015-10-26 12:55:52] 2015-10-26 12:55:07 [LIST: dev ] x y".toList =
        [g1 ++ "[S:".toList ++ g3 ++ g4 ++ g5 ++ g6 ++ "[LIST:".toList ++ g7 ++ "]".toList ++ g8,
          g1, "[S:".toList, g3, g4, g5, g6, g7, g8] ∧
      "5 N [S:2015-10-26 12:55:52] 2015-10-26 12:55:07 [LIST: dev ] x y".toList =
        g1 ++ "[S:".toList ++ g3 ++ g4 ++ g5 ++ g6 ++ u ∧
      AdsMuttIndexFormatCustom2.main ["ads-mutt-index-format-custom2".toList,
          "5 N [S:2015-10-26 12:55:52] 2015-10-26 12:55:07 [LIST: dev ] x y".toList] =
        Outcome.exit 0
          (g1 ++ List.replicate ("[S:".toList ++ g3 ++ g4).length ' ' ++ g5 ++ g6 ++
            (AdsMuttIndexFormatCustom2.listPart g7 ++ g8 ++ ['\n'])) :=
  ⟨by decide, by decide, C2_date_suppression _ _ (by decide) (by decide)⟩

/-- C3: the dates differ.  For a matching input whose sender-date value
(group 3) differs from the local-date value (group 5), the extended variant
writes a line that begins with groups 1 to 6 concatenated, which is the text of
the input up to the `[LIST:` tag, and the simple variant writes the whole input
line unchanged. -/
theorem C3_dates_differ (prog s : GoString) :
    (AdsMuttIndexFormatCustom2._RE_EXPECTED_PATTERN.FindStringSubmatch s ≠ [] →
      (AdsMuttIndexFormatCustom2._RE_EXPECTED_PATTERN.FindStringSubmatch s).getD 3 [] ≠
        (AdsMuttIndexFormatCustom2._RE_EXPECTED_PATTERN.FindStringSubmatch s).getD 5 [] →
      ∃ g1 g2 g3 g4 g5 g6 g7 g8 u : GoString,
        AdsMuttIndexFormatCustom2._RE_EXPECTED_PATTERN.FindStringSubmatch s =
          [g1 ++ g2 ++ g3 ++ g4 ++ g5 ++ g6 ++ "[LIST:".toList ++ g7 ++ "]".toList ++ g8,
            g1, g2, g3, g4, g5, g6, g7, g8] ∧
        s = (g1 ++ g2 ++ g3 ++ g4 ++ g5 ++ g6) ++ ("[LIST:".toList ++ u) ∧
        AdsMuttIndexFormatCustom2.main [prog, s] =
          Outcome.exit 0
            ((g1 ++ g2 ++ g3 ++ g4 ++ g5 ++ g6) ++
              (AdsMuttIndexFormatCustom2.listPart g7 ++ g8 ++ ['\n']))) ∧
    (MuttMsgSenderAndLocalDatetime2.RE_EXPECTED_PATTERN.FindStringSubmatch s ≠ [] →
      (MuttMsgSenderAndLocalDatetime2.RE_EXPECTED_PATTERN.FindStringSubmatch s).getD 3 [] ≠
        (MuttMsgSenderAndLocalDatetime2.RE_EXPECTED_PATTERN.FindStringSubmatch s).getD 5 [] →
      MuttMsgSenderAndLocalDatetime2.main [prog, s] = Outcome.exit 0 (s ++ ['\n'])) := by
  constructor
  · intro hm hne
    obtain ⟨g1, g2, g3, g4, g5, g6, g7, g8, rest, hF, hs, _⟩ := custom2_match_shape s hm
    refine ⟨g1, g2, g3, g4, g5, g6, g7, g8, g7 ++ "]".toList ++ g8 ++ rest, hF, ?_, ?_⟩
    · rw [hs]; simp
    · rw [custom2_main_of_match prog s hm]
      rw [hF] at hne ⊢
      simp only [List.getD_cons_succ, List.getD_cons_zero] at hne
      simp only [AdsMuttIndexFormatCustom2.datePart, List.getD_cons_succ, List.getD_cons_zero,
        hne, if_false]
      simp
  · intro hm hne
    have hl : (MuttMsgSenderAndLocalDatetime2.RE_EXPECTED_PATTERN.FindStringSubmatch s).length
        ≠ 0 := by simpa using hm
    simp only [MuttMsgSenderAndLocalDatetime2.main, List.get?_cons_succ, List.get?_cons_zero, hl,
      if_false, hne, Println]

/-- C3, at lines whose dates differ in the hour. -/
theorem C3_dates_differ_witness :
    AdsMuttIndexFormatCustom2.main ["ads-mutt-index-format-custom2".toList,
        "5 N [S:2015-10-26 12:55:52] 2015-10-26 13:10:05 [LIST: ads ] x y".toList] =
      Outcome.exit 0 "5 N [S:2015-10-26 12:55:52] 2015-10-26 13:10:05         x y\n".toList ∧
    (∃ g1 g2 g3 g4 g5 g6 g7 g8 u : GoString,
      AdsMuttIndexFormatCustom2._RE_EXPECTED_PATTERN.FindStringSubmatch
          "5 N [S:2015-10-26 12:55:52] 2015-10-26 13:10:05 [LIST: ads ] x y".toList =
        [g1 ++ g2 ++ g3 ++ g4 ++ g5 ++ g6 ++ "[LIST:".toList ++ g7 ++ "]".toList ++ g8,
          g1, g2, g3, g4, g5, g6, g7, g8] ∧
      "5 N [S:2015-10-26 12:55:52] 2015-10-26 13:10:05 [LIST: ads ] x y".toList =
        (g1 ++ g2 ++ g3 ++ g4 ++ g5 ++ g6) ++ ("[LIST:".toList ++ u) ∧
      AdsMuttIndexFormatCustom2.main ["ads-mutt-index-format-custom2".toList,
          "5 N [S:2015-10-26 12:55:52] 2015-10-26 13:10:05 [LIST: ads ] x y".toList] =
        Outcome.exit 0
          ((g1 ++ g2 ++ g3 ++ g4 ++ g5 ++ g6) ++
            (AdsMuttIndexFormatCustom2.listPart g7 ++ g8 ++ ['\n']))) ∧
    MuttMsgSenderAndLocalDatetime2.main ["mutt-msg-sender-and-local-datetime2".toList,
        "5 N [S:2015-10-26 12:55:52] 2015-10-26 13:10:05 x y".toList] =
      Outcome.exit 0 ("5 N [S:2015-10-26 12:55:52] 2015-10-26 13:10:05 x y".toList ++ ['\n']) :=
  ⟨by decide,
   (C3_dates_differ "ads-mutt-index-format-custom2".toList
      "5 N [S:2015-10-26 12:55:52] 2015-10-26 13:10:05 [LIST: ads ] x y".toList).1
      (by decide) (by decide),
   (C3_dates_differ "mutt-msg-sender-and-local-datetime2".toList
      "5 N [S:2015-10-26 12:55:52] 2015-10-26 13:10:05 x y".toList).2
      (by decide) (by decide)⟩

theorem padEmpty_two_add (n : Nat) : padEmpty (2 + (n : Int)) = List.replicate (2 + n) ' ' := by
  have h : (2 : Int) + (n : Int) = ((2 + n : Nat) : Int) := by push_cast; ring
  rw [h, padEmpty_ofNat]

theorem keep_listnm_eq_false (listnm : GoString) :
    AdsMuttIndexFormatCustom2.keep_listnm listnm = false ↔
      listnm ∈ AdsMuttIndexFormatCustom2.gl_ignorable_nonlists := by
  simp only [AdsMuttIndexFormatCustom2.keep_listnm,
    AdsMuttIndexFormatCustom2.gl_ignorable_nonlists, List.any_cons, List.any_nil, Bool.or_false,
    Bool.not_eq_false', beq_iff_eq, List.mem_singleton]
  exact eq_comm

theorem listPart_of_ignorable (raw : GoString)
    (h : TrimSpace raw ∈ AdsMuttIndexFormatCustom2.gl_ignorable_nonlists) :
    AdsMuttIndexFormatCustom2.listPart raw = List.replicate (2 + raw.length) ' ' := by
  have hk := (keep_listnm_eq_false (TrimSpace raw)).2 h
  simp only [AdsMuttIndexFormatCustom2.listPart, hk, RuneCountInString, padEmpty_two_add]
  simp

theorem listPart_of_kept (raw : GoString)
    (h : TrimSpace raw ∉ AdsMuttIndexFormatCustom2.gl_ignorable_nonlists) :
    AdsMuttIndexFormatCustom2.listPart raw =
      ['['] ++ TrimSpace raw ++ [']'] ++
        padEmpty (2 + (raw.length : Int) - (len (TrimSpace raw) : Int) - 2) := by
  have hk : AdsMuttIndexFormatCustom2.keep_listnm (TrimSpace raw) = true := by
    cases hb : AdsMuttIndexFormatCustom2.keep_listnm (TrimSpace raw) with
    | true => rfl
    | false => exact absurd ((keep_listnm_eq_false _).1 hb) h
  simp only [AdsMuttIndexFormatCustom2.listPart, hk, RuneCountInString, if_true]

/-- C4: list-name suppression by set membership in the extended variant.  For
a matching input, with `raw` the captured list-name text (group 7, the text
between `[LIST:` and `]` in the input) and `name` its trimmed value, the field
written in place of the tag is a run of exactly `2 + codepoints(raw)` spaces if
and only if `name` is an entry of `gl_ignorable_nonlists`, that is if and only
if `name` is `ads`; for every other name the field starts with `[name]`. -/
theorem C4_list_name_suppression (prog s : GoString)
    (hm : AdsMuttIndexFormatCustom2._RE_EXPECTED_PATTERN.FindStringSubmatch s ≠ []) :
    ∃ raw tail pre post : GoString,
      (AdsMuttIndexFormatCustom2._RE_EXPECTED_PATTERN.FindStringSubmatch s).getD 7 [] = raw ∧
      (AdsMuttIndexFormatCustom2._RE_EXPECTED_PATTERN.FindStringSubmatch s).getD 8 [] = tail ∧
      s = pre ++ ("[LIST:".toList ++ raw ++ "]".toList) ++ tail ++ post ∧
      AdsMuttIndexFormatCustom2.main [prog, s] =
        Outcome.exit 0
          (AdsMuttIndexFormatCustom2.datePart
              (AdsMuttIndexFormatCustom2._RE_EXPECTED_PATTERN.FindStringSubmatch s) ++
            AdsMuttIndexFormatCustom2.listPart raw ++ tail ++ ['\n']) ∧
      (AdsMuttIndexFormatCustom2.listPart raw = List.replicate (2 + raw.length) ' ' ↔
        TrimSpace raw ∈ AdsMuttIndexFormatCustom2.gl_ignorable_nonlists) ∧
      (TrimSpace raw ∈ AdsMuttIndexFormatCustom2.gl_ignorable_nonlists ↔
        TrimSpace raw = "ads".toList) ∧
      (TrimSpace raw ∉ AdsMuttIndexFormatCustom2.gl_ignorable_nonlists →
        ∃ pad, AdsMuttIndexFormatCustom2.listPart raw =
          "[".toList ++ TrimSpace raw ++ "]".toList ++ pad) := by
  obtain ⟨g1, g2, g3, g4, g5, g6, g7, g8, rest, hF, hs, _⟩ := custom2_match_shape s hm
  refine ⟨g7, g8, g1 ++ g2 ++ g3 ++ g4 ++ g5 ++ g6, rest, ?_, ?_, ?_, ?_, ?_, ?_, ?_⟩
  · rw [hF]; rfl
  · rw [hF]; rfl
  · rw [hs]; simp
  · rw [custom2_main_of_match prog s hm, hF]; rfl
  · constructor
    · intro h
      by_contra hn
      rw [listPart_of_kept g7 hn] at h
      have h0 := congrArg List.head? h
      simp [List.replicate_succ'] at h0
      cases hr : List.replicate (2 + g7.length) ' ' with
      | nil => simp at hr
      | cons x xs =>
        rw [hr] at h0
        have hx : x ∈ List.replicate (2 + g7.length) ' ' := by rw [hr]; exact List.mem_cons_self _ _
        rw [List.eq_of_mem_replicate hx] at h0
        simp at h0
    · exact listPart_of_ignorable g7
  · simp [AdsMuttIndexFormatCustom2.gl_ignorable_nonlists]
  · intro hn
    exact ⟨_, listPart_of_kept g7 hn⟩

/-- C4, at a line whose list name is the known alternate `ads`; the field
`[LIST: ads ]` of 12 code points becomes 7 spaces. -/
theorem C4_list_name_suppression_witness :
    AdsMuttIndexFormatCustom2._RE_EXPECTED_PATTERN.FindStringSubmatch
        "5 N [S:2015-10-26 12:55:52] 2015-10-26 13:10:05 [LIST: ads ] x y".toList ≠ [] ∧
    AdsMuttIndexFormatCustom2.listPart " ads ".toList = "       ".toList ∧
    AdsMuttIndexFormatCustom2.listPart " Ads ".toList = "[Ads]  ".toList ∧
    ∃ raw tail pre post : GoString,
      (AdsMuttIndexFormatCustom2._RE_EXPECTED_PATTERN.FindStringSubmatch
        "5 N [S:2015-10-26 12:55:52] 2015-10-26 13:10:05 [LIST: ads ] x y".toList).getD 7 []
          = raw ∧
      (AdsMuttIndexFormatCustom2._RE_EXPECTED_PATTERN.FindStringSubmatch
        "5 N [S:2015-10-26 12:55:52] 2015-10-26 13:10:05 [LIST: ads ] x y".toList).getD 8 []
          = tail ∧
      "5 N [S:2015-10-26 12:55:52] 2015-10-26 13:10:05 [LIST: ads ] x y".toList =
        pre ++ ("[LIST:".toList ++ raw ++ "]".toList) ++ tail ++ post ∧
      AdsMuttIndexFormatCustom2.main ["ads-mutt-index-format-custom2".toList,
          "5 N [S:2015-10-26 12:55:52] 2015-10-26 13:10:05 [LIST: ads ] x y".toList] =
        Outcome.exit 0
          (AdsMuttIndexFormatCustom2.datePart
              (AdsMuttIndexFormatCustom2._RE_EXPECTED_PATTERN.FindStringSubmatch
                "5 N [S:2015-10-26 12:55:52] 2015-10-26 13:10:05 [LIST: ads ] x y".toList) ++
            AdsMuttIndexFormatCustom2.listPart raw ++ tail ++ ['\n']) ∧
      (AdsMuttIndexFormatCustom2.listPart raw = List.replicate (2 + raw.length) ' ' ↔
        TrimSpace raw ∈ AdsMuttIndexFormatCustom2.gl_ignorable_nonlists) ∧
      (TrimSpace raw ∈ AdsMuttIndexFormatCustom2.gl_ignorable_nonlists ↔
        TrimSpace raw = "ads".toList) ∧
      (TrimSpace raw ∉ AdsMuttIndexFormatCustom2.gl_ignorable_nonlists →
        ∃ pad, AdsMuttIndexFormatCustom2.listPart raw =
          "[".toList ++ TrimSpace raw ++ "]".toList ++ pad) :=
  ⟨by decide, by decide, by decide,
   C4_list_name_suppression "ads-mutt-index-format-custom2".toList
     "5 N [S:2015-10-26 12:55:52] 2015-10-26 13:10:05 [LIST: ads ] x y".toList (by decide)⟩

/-- C5: the kept list-name field and the declared width.  The padding is
computed from `len(listnm)`, the byte length of the trimmed name, while the
declared width counts code points.  For the tag `[LIST: café  ]` (raw text of
7 code points, declared width 9) the field written is `[café]` and 2 spaces,
8 code points; for `[LIST:éé]` (declared width 4) the computed padding is
negative and the field `[éé]` with 2 spaces has 6 code points.  The ASCII name
of the documentation keeps the width: `[devteam]` and 10 spaces, 19 code
points. -/
theorem C5_kept_field_width_non_ascii :
    AdsMuttIndexFormatCustom2._RE_EXPECTED_PATTERN.FindStringSubmatch
        "5 N [S:2015-10-26 12:55:52] 2015-10-26 13:10:05 [LIST: café  ] x".toList =
      ["5 N [S:2015-10-26 12:55:52] 2015-10-26 13:10:05 [LIST: café  ] x".toList,
        "5 N ".toList, "[S:".toList, "2015-10-26 12:55".toList, ":52] ".toList,
        "2015-10-26 13:10".toList, ":05 ".toList, " café  ".toList, " x".toList] ∧
    AdsMuttIndexFormatCustom2.main ["ads-mutt-index-format-custom2".toList,
        "5 N [S:2015-10-26 12:55:52] 2015-10-26 13:10:05 [LIST: café  ] x".toList] =
      Outcome.exit 0 "5 N [S:2015-10-26 12:55:52] 2015-10-26 13:10:05 [café]   x\n".toList ∧
    AdsMuttIndexFormatCustom2.listPart " café  ".toList = "[café]  ".toList ∧
    (AdsMuttIndexFormatCustom2.listPart " café  ".toList).length = 8 ∧
    2 + RuneCountInString " café  ".toList = 9 ∧
    AdsMuttIndexFormatCustom2.listPart "éé".toList = "[éé]  ".toList ∧
    2 + RuneCountInString "éé".toList = 4 ∧
    AdsMuttIndexFormatCustom2.listPart " devteam         ".toList =
      "[devteam]          ".toList ∧
    (AdsMuttIndexFormatCustom2.listPart " devteam         ".toList).length = 19 := by
  refine ⟨by decide, by decide, by decide, by decide, by decide, by decide, by decide,
    by decide, by decide⟩

/-- C8: text after a line break is dropped by the extended variant.  The
pattern has no `$` at its end and the dot does not match the newline, so for a
matching line with a line break in the text after the list tag the match (and
group 8) stops before the line break: the captured fields do not make up the
input and the output line lacks what follows the line break.  The simple
variant, whose pattern ends in `$`, prints the same kind of line whole. -/
theorem C8_text_after_line_break_dropped :
    AdsMuttIndexFormatCustom2._RE_EXPECTED_PATTERN.FindStringSubmatch
        "5 N [S:2015-10-26 12:55:52] 2015-10-26 13:10:05 [LIST: dev ] subj\nmore".toList =
      ["5 N [S:2015-10-26 12:55:52] 2015-10-26 13:10:05 [LIST: dev ] subj".toList,
        "5 N ".toList, "[S:".toList, "2015-10-26 12:55".toList, ":52] ".toList,
        "2015-10-26 13:10".toList, ":05 ".toList, " dev ".toList, " subj".toList] ∧
    "5 N ".toList ++ "[S:".toList ++ "2015-10-26 12:55".toList ++ ":52] ".toList ++
        "2015-10-26 13:10".toList ++ ":05 ".toList ++ "[LIST:".toList ++ " dev ".toList ++
        "]".toList ++ " subj".toList ≠
      "5 N [S:2015-10-26 12:55:52] 2015-10-26 13:10:05 [LIST: dev ] subj\nmore".toList ∧
    AdsMuttIndexFormatCustom2.main ["ads-mutt-index-format-custom2".toList,
        "5 N [S:2015-10-26 12:55:52] 2015-10-26 13:10:05 [LIST: dev ] subj\nmore".toList] =
      Outcome.exit 0 "5 N [S:2015-10-26 12:55:52] 2015-10-26 13:10:05 [dev]   subj\n".toList ∧
    MuttMsgSenderAndLocalDatetime2.main ["mutt-msg-sender-and-local-datetime2".toList,
        "5 N [S:2015-10-26 12:55:52] 2015-10-26 12:55:05 subj\nmore".toList] =
      Outcome.exit 0 "5 N [S:2015-10-26 12:55:52] 2015-10-26 12:55:05 subj\nmore\n".toList := by
  refine ⟨by decide, by decide, by decide, by decide⟩

theorem RuneLen_of_lt (c : Char) (h : c.toNat < 128) : RuneLen c = 1 := by
  simp [RuneLen, h]

theorem len_append (a b : GoString) : len (a ++ b) = len a + len b := by
  simp [len]

theorem len_replicate_space (n : Nat) : len (List.replicate n ' ') = n := by
  induction n with
  | zero => rfl
  | succ n ih =>
    rw [List.replicate_succ]
    have h : len (' ' :: List.replicate n ' ') = RuneLen ' ' + len (List.replicate n ' ') := by
      simp [len]
    rw [h, ih]
    have : RuneLen ' ' = 1 := by decide
    omega

theorem len_of_ascii : ∀ t : GoString, (∀ c ∈ t, c.toNat < 128) → len t = t.length := by
  intro t
  induction t with
  | nil => intro _; rfl
  | cons x xs ih =>
    intro h
    have hx : RuneLen x = 1 := RuneLen_of_lt x (h x (List.mem_cons_self _ _))
    have hxs := ih (fun c hc => h c (List.mem_cons_of_mem _ hc))
    have : len (x :: xs) = RuneLen x + len xs := by simp [len]
    rw [this, hx, hxs, List.length_cons]
    omega

theorem TrimSpace_length_le (s : GoString) : (TrimSpace s).length ≤ s.length := by
  unfold TrimSpace
  rw [List.length_reverse]
  refine le_trans (List.Sublist.length_le (List.dropWhile_sublist _)) ?_
  rw [List.length_reverse]
  exact List.Sublist.length_le (List.dropWhile_sublist _)

/-- Width of the list-name field for a trimmed name of ASCII characters: the
declared width. -/
theorem listPart_length (raw : GoString) (hascii : ∀ c ∈ TrimSpace raw, c.toNat < 128) :
    (AdsMuttIndexFormatCustom2.listPart raw).length = 2 + raw.length := by
  by_cases h : TrimSpace raw ∈ AdsMuttIndexFormatCustom2.gl_ignorable_nonlists
  · rw [listPart_of_ignorable raw h, List.length_replicate]
  · rw [listPart_of_kept raw h, len_of_ascii _ hascii]
    have hle := TrimSpace_length_le raw
    have hpad : padEmpty (2 + (raw.length : Int) - ((TrimSpace raw).length : Int) - 2) =
        List.replicate (raw.length - (TrimSpace raw).length) ' ' := by
      have e : (2 + (raw.length : Int) - ((TrimSpace raw).length : Int) - 2) =
          ((raw.length - (TrimSpace raw).length : Nat) : Int) := by
        rw [Nat.cast_sub hle]; ring
      rw [e, padEmpty_ofNat]
    rw [hpad]
    simp only [List.length_append, List.length_replicate, List.length_cons, List.length_nil]
    omega

/-- The date part of the output is as wide as groups 1 to 6. -/
theorem datePart_length (w g1 g2 g3 g4 g5 g6 g7 g8 : GoString) :
    (AdsMuttIndexFormatCustom2.datePart [w, g1, g2, g3, g4, g5, g6, g7, g8]).length =
      (g1 ++ g2 ++ g3 ++ g4 ++ g5 ++ g6).length := by
  by_cases h : g3 = g5
  · simp only [AdsMuttIndexFormatCustom2.datePart, List.getD_cons_succ, List.getD_cons_zero, h,
      if_true, RuneCountInString, padEmpty_ofNat, List.length_append, List.length_replicate]
    omega
  · simp only [AdsMuttIndexFormatCustom2.datePart, List.getD_cons_succ, List.getD_cons_zero, h,
      if_false]

/-- C6 as the code has it: for a matching input whose trimmed list name has
only ASCII characters, the output line is the date part, the list-name field
and group 8.  The date part has the width of the input up to the list tag; the
tag `[LIST:raw]`, of `7 + codepoints(raw)` code points, becomes a field of
`2 + codepoints(raw)` code points, the 5 code points of the `LIST:` token being
left out; group 8 is written as it is.  So the output line is 5 code points
shorter than the text the pattern matched, which is the whole input when no
line break occurs in the text after the list tag. -/
theorem C6_output_five_shorter (prog s : GoString)
    (hm : AdsMuttIndexFormatCustom2._RE_EXPECTED_PATTERN.FindStringSubmatch s ≠ [])
    (hascii : ∀ c ∈ TrimSpace
      ((AdsMuttIndexFormatCustom2._RE_EXPECTED_PATTERN.FindStringSubmatch s).getD 7 []),
      c.toNat < 128) :
    ∃ pre raw tail post dates field out : GoString,
      (AdsMuttIndexFormatCustom2._RE_EXPECTED_PATTERN.FindStringSubmatch s).getD 7 [] = raw ∧
      (AdsMuttIndexFormatCustom2._RE_EXPECTED_PATTERN.FindStringSubmatch s).getD 8 [] = tail ∧
      (AdsMuttIndexFormatCustom2._RE_EXPECTED_PATTERN.FindStringSubmatch s).getD 0 [] =
        pre ++ ("[LIST:".toList ++ raw ++ "]".toList) ++ tail ∧
      s = pre ++ ("[LIST:".toList ++ raw ++ "]".toList) ++ tail ++ post ∧
      dates = AdsMuttIndexFormatCustom2.datePart
        (AdsMuttIndexFormatCustom2._RE_EXPECTED_PATTERN.FindStringSubmatch s) ∧
      field = AdsMuttIndexFormatCustom2.listPart raw ∧
      out = dates ++ field ++ tail ∧
      AdsMuttIndexFormatCustom2.main [prog, s] = Outcome.exit 0 (out ++ ['\n']) ∧
      RuneCountInString dates = RuneCountInString pre ∧
      RuneCountInString ("[LIST:".toList ++ raw ++ "]".toList) = 7 + RuneCountInString raw ∧
      RuneCountInString field = 2 + RuneCountInString raw ∧
      out.length + 5 =
        ((AdsMuttIndexFormatCustom2._RE_EXPECTED_PATTERN.FindStringSubmatch s).getD 0 []).length ∧
      ('\n' ∉ List.drop
          (((AdsMuttIndexFormatCustom2._RE_EXPECTED_PATTERN.FindStringSubmatch s).getD 0 []).length
            - ((AdsMuttIndexFormatCustom2._RE_EXPECTED_PATTERN.FindStringSubmatch s).getD 8 []).length) s →
        out.length + 5 = List.length s) := by
  obtain ⟨g1, g2, g3, g4, g5, g6, g7, g8, rest, hF, hs, _, _, _, _, _, _, _, _, hrest⟩ :=
    custom2_match_shape s hm
  rw [hF] at hascii
  simp only [List.getD_cons_succ, List.getD_cons_zero] at hascii
  have hlen : (AdsMuttIndexFormatCustom2.datePart
        (AdsMuttIndexFormatCustom2._RE_EXPECTED_PATTERN.FindStringSubmatch s) ++
      AdsMuttIndexFormatCustom2.listPart g7 ++ g8).length + 5 =
      (g1 ++ g2 ++ g3 ++ g4 ++ g5 ++ g6 ++ "[LIST:".toList ++ g7 ++ "]".toList ++ g8).length := by
    rw [hF]
    simp only [List.length_append, datePart_length, listPart_length g7 hascii]
    have e1 : "[LIST:".toList.length = 6 := rfl
    have e2 : "]".toList.length = 1 := rfl
    rw [e1, e2]
    omega
  refine ⟨g1 ++ g2 ++ g3 ++ g4 ++ g5 ++ g6, g7, g8, rest,
    AdsMuttIndexFormatCustom2.datePart
      (AdsMuttIndexFormatCustom2._RE_EXPECTED_PATTERN.FindStringSubmatch s),
    AdsMuttIndexFormatCustom2.listPart g7,
    AdsMuttIndexFormatCustom2.datePart
        (AdsMuttIndexFormatCustom2._RE_EXPECTED_PATTERN.FindStringSubmatch s) ++
      AdsMuttIndexFormatCustom2.listPart g7 ++ g8,
    ?_, ?_, ?_, ?_, rfl, rfl, rfl, ?_, ?_, ?_, ?_, ?_, ?_⟩
  · rw [hF]; rfl
  · rw [hF]; rfl
  · rw [hF]
    simp
  · conv_lhs => rw [hs]
    simp
  · rw [custom2_main_of_match prog s hm]
    rw [hF]
    rfl
  · rw [hF]
    exact datePart_length _ g1 g2 g3 g4 g5 g6 g7 g8
  · have e1 : "[LIST:".toList.length = 6 := rfl
    have e2 : "]".toList.length = 1 := rfl
    simp only [RuneCountInString, List.length_append, e1, e2]
    omega
  · exact listPart_length g7 hascii
  · rw [hlen, hF]
    rfl
  · intro hnl
    rw [hlen]
    have hrest0 : rest = [] := by
      cases rest with
      | nil => rfl
      | cons c cs =>
        exfalso
        have hc := hrest c rfl
        subst hc
        apply hnl
        rw [hF, hs]
        simp only [List.getD_cons_zero, List.getD_cons_succ]
        rw [List.drop_append_eq_append_drop]
        simp
    rw [hs, hrest0, List.append_nil]

/-- C6, at a short line: the tag `[LIST: dev ]` of 12 code points becomes the
field `[dev]` and 2 spaces, 7 code points, and the output has 5 code points
fewer than the input. -/
theorem C6_output_five_shorter_witness :
    AdsMuttIndexFormatCustom2._RE_EXPECTED_PATTERN.FindStringSubmatch
        "5 N [S:2015-10-26 12:55:52] 2015-10-26 12:55:07 [LIST: dev ] x y".toList ≠ [] ∧
    '\n' ∉ " x y".toList ∧
    RuneCountInString "[LIST: dev ]".toList = 12 ∧
    AdsMuttIndexFormatCustom2.listPart " dev ".toList = "[dev]  ".toList ∧
    ∃ pre raw tail post dates field out : GoString,
      (AdsMuttIndexFormatCustom2._RE_EXPECTED_PATTERN.FindStringSubmatch
        "5 N [S:2015-10-26 12:55:52] 2015-10-26 12:55:07 [LIST: dev ] x y".toList).getD 7 [] = raw ∧
      (AdsMuttIndexFormatCustom2._RE_EXPECTED_PATTERN.FindStringSubmatch
        "5 N [S:2015-10-26 12:55:52] 2015-10-26 12:55:07 [LIST: dev ] x y".toList).getD 8 [] = tail ∧
      (AdsMuttIndexFormatCustom2._RE_EXPECTED_PATTERN.FindStringSubmatch
        "5 N [S:2015-10-26 12:55:52] 2015-10-26 12:55:07 [LIST: dev ] x y".toList).getD 0 [] =
        pre ++ ("[LIST:".toList ++ raw ++ "]".toList) ++ tail ∧
      "5 N [S:2015-10-26 12:55:52] 2015-10-26 12:55:07 [LIST: dev ] x y".toList =
        pre ++ ("[LIST:".toList ++ raw ++ "]".toList) ++ tail ++ post ∧
      dates = AdsMuttIndexFormatCustom2.datePart
        (AdsMuttIndexFormatCustom2._RE_EXPECTED_PATTERN.FindStringSubmatch
          "5 N [S:2015-10-26 12:55:52] 2015-10-26 12:55:07 [LIST: dev ] x y".toList) ∧
      field = AdsMuttIndexFormatCustom2.listPart raw ∧
      out = dates ++ field ++ tail ∧
      AdsMuttIndexFormatCustom2.main ["ads-mutt-index-format-custom2".toList,
          "5 N [S:2015-10-26 12:55:52] 2015-10-26 12:55:07 [LIST: dev ] x y".toList] =
        Outcome.exit 0 (out ++ ['\n']) ∧
      RuneCountInString dates = RuneCountInString pre ∧
      RuneCountInString ("[LIST:".toList ++ raw ++ "]".toList) = 7 + RuneCountInString raw ∧
      RuneCountInString field = 2 + RuneCountInString raw ∧
      out.length + 5 =
        ((AdsMuttIndexFormatCustom2._RE_EXPECTED_PATTERN.FindStringSubmatch
          "5 N [S:2015-10-26 12:55:52] 2015-10-26 12:55:07 [LIST: dev ] x y".toList).getD 0 []).length ∧
      ('\n' ∉ List.drop
          (((AdsMuttIndexFormatCustom2._RE_EXPECTED_PATTERN.FindStringSubmatch
              "5 N [S:2015-10-26 12:55:52] 2015-10-26 12:55:07 [LIST: dev ] x y".toList).getD 0 []).length
            - ((AdsMuttIndexFormatCustom2._RE_EXPECTED_PATTERN.FindStringSubmatch
              "5 N [S:2015-10-26 12:55:52] 2015-10-26 12:55:07 [LIST: dev ] x y".toList).getD 8 []).length)
          "5 N [S:2015-10-26 12:55:52] 2015-10-26 12:55:07 [LIST: dev ] x y".toList →
        out.length + 5 = List.length "5 N [S:2015-10-26 12:55:52] 2015-10-26 12:55:07 [LIST: dev ] x y".toList) :=
  ⟨by decide, by decide, by decide, by decide,
   C6_output_five_shorter "ads-mutt-index-format-custom2".toList
     "5 N [S:2015-10-26 12:55:52] 2015-10-26 12:55:07 [LIST: dev ] x y".toList
     (by decide) (by decide)⟩

set_option maxRecDepth 100000 in
/-- C6 as stated fails: the documented example line of 175 code points
matches the pattern and the output line has 170 code points. -/
theorem C6_width_not_preserved :
    AdsMuttIndexFormatCustom2._RE_EXPECTED_PATTERN.FindStringSubmatch
        "23666  N    [S:2015-10-26 12:55:52]  2015-10-26 12:55:52  [LIST: ads             ]  sender@example.com             (b:   1.3K; l:   144)     blah blah blah some random subject".toList
      ≠ [] ∧
    AdsMuttIndexFormatCustom2.main ["ads-mutt-index-format-custom2".toList,
        "23666  N    [S:2015-10-26 12:55:52]  2015-10-26 12:55:52  [LIST: ads             ]  sender@example.com             (b:   1.3K; l:   144)     blah blah blah some random subject".toList]
      = Outcome.exit 0
        ("23666  N                             2015-10-26 12:55:52                       sender@example.com             (b:   1.3K; l:   144)     blah blah blah some random subject".toList
          ++ ['\n']) ∧
    "23666  N    [S:2015-10-26 12:55:52]  2015-10-26 12:55:52  [LIST: ads             ]  sender@example.com             (b:   1.3K; l:   144)     blah blah blah some random subject".toList.length
      = 175 ∧
    "23666  N                             2015-10-26 12:55:52                       sender@example.com             (b:   1.3K; l:   144)     blah blah blah some random subject".toList.length
      = 170 := by
  refine ⟨by decide, by decide, by decide, by decide⟩

theorem clsDigit_lt (c : Char) (h : clsDigit c = true) : c.toNat < 128 := by
  simp only [clsDigit, Bool.and_eq_true, decide_eq_true_eq] at h
  omega

theorem clsSpace_lt (c : Char) (h : clsSpace c = true) : c.toNat < 128 := by
  simp only [clsSpace, Bool.or_eq_true, Bool.and_eq_true, decide_eq_true_eq, beq_iff_eq] at h
  omega

theorem clsLit_lt (x c : Char) (hx : x.toNat < 128) (h : clsLit x c = true) : c.toNat < 128 := by
  simp only [clsLit, beq_iff_eq] at h
  rw [h]
  exact hx

theorem dateAtoms_ascii (t : GoString) (h : PartOK dateAtoms t) : ∀ c ∈ t, c.toNat < 128 := by
  intro c hc
  obtain ⟨a, ha, hac⟩ := PartOK_mem _ _ h c hc
  simp only [dateAtoms, List.mem_cons, List.mem_singleton, List.not_mem_nil, or_false] at ha
  rcases ha with rfl | rfl | rfl | rfl | rfl | rfl | rfl | rfl | rfl
  · exact clsDigit_lt c hac
  · exact clsLit_lt _ c (by decide) hac
  · exact clsDigit_lt c hac
  · exact clsLit_lt _ c (by decide) hac
  · exact clsDigit_lt c hac
  · exact clsSpace_lt c hac
  · exact clsDigit_lt c hac
  · exact clsLit_lt _ c (by decide) hac
  · exact clsDigit_lt c hac

theorem secondsClose_ascii (t : GoString)
    (h : PartOK [Atom.lit ':', Atom.range clsDigit 1 2, Atom.lit ']', Atom.plus clsSpace] t) :
    ∀ c ∈ t, c.toNat < 128 := by
  intro c hc
  obtain ⟨a, ha, hac⟩ := PartOK_mem _ _ h c hc
  simp only [List.mem_cons, List.mem_singleton, List.not_mem_nil, or_false] at ha
  rcases ha with rfl | rfl | rfl | rfl
  · exact clsLit_lt _ c (by decide) hac
  · exact clsDigit_lt c hac
  · exact clsLit_lt _ c (by decide) hac
  · exact clsSpace_lt c hac

/-- C7: width preservation in the simple variant.  For every argument string
(whatever follows it on the command line) one line is written with exit code
0, and that line has as many code points and as many bytes as the input. -/
theorem C7_simple_width_preserved (prog s : GoString) (more : List GoString) :
    ∃ out : GoString,
      MuttMsgSenderAndLocalDatetime2.main (prog :: s :: more) = Outcome.exit 0 (out ++ ['\n']) ∧
      RuneCountInString out = RuneCountInString s ∧ len out = len s := by
  by_cases hm : MuttMsgSenderAndLocalDatetime2.RE_EXPECTED_PATTERN.FindStringSubmatch s = []
  · exact ⟨s, by simp [MuttMsgSenderAndLocalDatetime2.main, hm, Println], rfl, rfl⟩
  · obtain ⟨g1, g2, g3, g4, g5, g6, hF, hs, _, e2, h3, h4, _, _⟩ := simple_match_shape s hm
    by_cases heq : g3 = g5
    · refine ⟨g1 ++ List.replicate (g2 ++ g3 ++ g4).length ' ' ++ g5 ++ g6, ?_, ?_, ?_⟩
      · simp only [MuttMsgSenderAndLocalDatetime2.main, List.get?_cons_succ, List.get?_cons_zero,
          hF, List.getD_cons_succ, List.getD_cons_zero, heq, if_true, RuneCountInString,
          padEmpty_ofNat, Println]
        simp
      · rw [hs]
        simp only [RuneCountInString, List.length_append, List.length_replicate]
        omega
      · have ha : ∀ c ∈ g2 ++ g3 ++ g4, c.toNat < 128 := by
          intro c hc
          simp only [List.mem_append] at hc
          rcases hc with (hc | hc) | hc
          · subst e2
            revert c
            decide
          · exact dateAtoms_ascii g3 h3 c hc
          · exact secondsClose_ascii g4 h4 c hc
        have hb := len_of_ascii _ ha
        rw [hs]
        simp only [len_append, len_replicate_space] at hb ⊢
        simp only [List.length_append] at hb ⊢
        omega
    · refine ⟨s, ?_, rfl, rfl⟩
      simp only [MuttMsgSenderAndLocalDatetime2.main, List.get?_cons_succ, List.get?_cons_zero,
        hF, List.getD_cons_succ, List.getD_cons_zero, heq, if_false, Println]
      simp

theorem simple_main_of_match (prog s g1 g2 g3 g4 g5 g6 : GoString)
    (hF : MuttMsgSenderAndLocalDatetime2.RE_EXPECTED_PATTERN.FindStringSubmatch s =
      [s, g1, g2, g3, g4, g5, g6]) :
    MuttMsgSenderAndLocalDatetime2.main [prog, s] =
      if g3 = g5 then
        Outcome.exit 0 (g1 ++ List.replicate (g2 ++ g3 ++ g4).length ' ' ++ g5 ++ g6 ++ ['\n'])
      else Outcome.exit 0 (s ++ ['\n']) := by
  by_cases heq : g3 = g5
  · simp only [MuttMsgSenderAndLocalDatetime2.main, List.get?_cons_succ, List.get?_cons_zero,
      hF, List.getD_cons_succ, List.getD_cons_zero, heq, if_true, RuneCountInString,
      padEmpty_ofNat, Println]
    simp
  · simp only [MuttMsgSenderAndLocalDatetime2.main, List.get?_cons_succ, List.get?_cons_zero,
      hF, List.getD_cons_succ, List.getD_cons_zero, heq, if_false, Println]
    simp

/-- C11: date suppression in the simple variant.  For a matching input whose
sender-date value (group 3) equals its local-date value (group 5), the line
written is exactly group 1, then as many spaces as `[S:` + group 3 + group 4
has code points, then group 5, then group 6; the six groups, group 2 being
`[S:`, make up the input. -/
theorem C11_simple_date_suppression (prog s : GoString)
    (hm : MuttMsgSenderAndLocalDatetime2.RE_EXPECTED_PATTERN.FindStringSubmatch s ≠ [])
    (heq : (MuttMsgSenderAndLocalDatetime2.RE_EXPECTED_PATTERN.FindStringSubmatch s).getD 3 [] =
      (MuttMsgSenderAndLocalDatetime2.RE_EXPECTED_PATTERN.FindStringSubmatch s).getD 5 []) :
    ∃ g1 g3 g4 g5 g6 : GoString,
      MuttMsgSenderAndLocalDatetime2.RE_EXPECTED_PATTERN.FindStringSubmatch s =
        [s, g1, "[S:".toList, g3, g4, g5, g6] ∧
      s = g1 ++ "[S:".toList ++ g3 ++ g4 ++ g5 ++ g6 ∧
      MuttMsgSenderAndLocalDatetime2.main [prog, s] =
        Outcome.exit 0
          (g1 ++ List.replicate ("[S:".toList ++ g3 ++ g4).length ' ' ++ g5 ++ g6 ++ ['\n']) := by
  obtain ⟨g1, g2, g3, g4, g5, g6, hF, hs, _, e2, _⟩ := simple_match_shape s hm
  subst e2
  rw [hF] at heq
  simp only [List.getD_cons_succ, List.getD_cons_zero] at heq
  refine ⟨g1, g3, g4, g5, g6, hF, hs, ?_⟩
  rw [simple_main_of_match prog s _ _ _ _ _ _ hF, if_pos heq]

set_option maxRecDepth 100000 in
/-- C11, at the example line of the program's documentation. -/
theorem C11_simple_date_suppression_witness :
    MuttMsgSenderAndLocalDatetime2.RE_EXPECTED_PATTERN.FindStringSubmatch
        "23666  N    [S:2015-10-26 12:55:52]  2015-10-26 12:55:52  sender@example.com             (   144)     blah blah blah some random subject".toList
      ≠ [] ∧
    MuttMsgSenderAndLocalDatetime2.main ["mutt-msg-sender-and-local-datetime2".toList,
        "23666  N    [S:2015-10-26 12:55:52]  2015-10-26 12:55:52  sender@example.com             (   144)     blah blah blah some random subject".toList]
      = Outcome.exit 0
        ("23666  N".toList ++ List.replicate 29 ' ' ++
          "2015-10-26 12:55:52  sender@example.com             (   144)     blah blah blah some random subject".toList
          ++ ['\n']) ∧
    ∃ g1 g3 g4 g5 g6 : GoString,
      MuttMsgSenderAndLocalDatetime2.RE_EXPECTED_PATTERN.FindStringSubmatch
          "23666  N    [S:2015-10-26 12:55:52]  2015-10-26 12:55:52  sender@example.com             (   144)     blah blah blah some random subject".toList
        = ["23666  N    [S:2015-10-26 12:55:52]  2015-10-26 12:55:52  sender@example.com             (   144)     blah blah blah some random subject".toList,
            g1, "[S:".toList, g3, g4, g5, g6] ∧
      "23666  N    [S:2015-10-26 12:55:52]  2015-10-26 12:55:52  sender@example.com             (   144)     blah blah blah some random subject".toList
        = g1 ++ "[S:".toList ++ g3 ++ g4 ++ g5 ++ g6 ∧
      MuttMsgSenderAndLocalDatetime2.main ["mutt-msg-sender-and-local-datetime2".toList,
          "23666  N    [S:2015-10-26 12:55:52]  2015-10-26 12:55:52  sender@example.com             (   144)     blah blah blah some random subject".toList]
        = Outcome.exit 0
          (g1 ++ List.replicate ("[S:".toList ++ g3 ++ g4).length ' ' ++ g5 ++ g6 ++ ['\n']) :=
  ⟨by decide, by decide, C11_simple_date_suppression _ _ (by decide) (by decide)⟩

set_option maxRecDepth 100000 in
/-- C12: concrete scenario 1 for the extended variant.  The example line
matches the pattern; the sender-date chunk `[S:2015-10-26 12:55:52]  ` of 25
code points is blanked (with the 4 spaces that end group 1 that makes 29
spaces after `23666  N`), the local date is kept, and the list field for `ads`
is 19 spaces (with the 2 spaces before and the 2 after it, 23 spaces). -/
theorem C12_scenario_one :
    AdsMuttIndexFormatCustom2._RE_EXPECTED_PATTERN.FindStringSubmatch
        "23666  N    [S:2015-10-26 12:55:52]  2015-10-26 12:55:52  [LIST: ads             ]  sender@example.com             (b:   1.3K; l:   144)     blah blah blah some random subject".toList
      = ["23666  N    [S:2015-10-26 12:55:52]  2015-10-26 12:55:52  [LIST: ads             ]  sender@example.com             (b:   1.3K; l:   144)     blah blah blah some random subject".toList,
          "23666  N    ".toList, "[S:".toList, "2015-10-26 12:55".toList, ":52]  ".toList,
          "2015-10-26 12:55".toList, ":52  ".toList, " ads             ".toList,
          "  sender@example.com             (b:   1.3K; l:   144)     blah blah blah some random subject".toList] ∧
    AdsMuttIndexFormatCustom2.main ["ads-mutt-index-format-custom2".toList,
        "23666  N    [S:2015-10-26 12:55:52]  2015-10-26 12:55:52  [LIST: ads             ]  sender@example.com             (b:   1.3K; l:   144)     blah blah blah some random subject".toList]
      = Outcome.exit 0
        ("23666  N".toList ++ List.replicate 29 ' ' ++ "2015-10-26 12:55:52".toList ++
          List.replicate 23 ' ' ++
          "sender@example.com             (b:   1.3K; l:   144)     blah blah blah some random subject".toList
          ++ ['\n']) ∧
    RuneCountInString ("[S:".toList ++ "2015-10-26 12:55".toList ++ ":52]  ".toList) = 25 ∧
    AdsMuttIndexFormatCustom2.listPart " ads             ".toList = List.replicate 19 ' ' := by
  refine ⟨by decide, by decide, by decide, by decide⟩

theorem replicate_space_ne_bracket (n : Nat) (hn : 0 < n) (a b t u : GoString)
    (h : a ++ List.replicate n ' ' ++ t = a ++ ('[' :: b) ++ u) : False := by
  rw [List.append_assoc, List.append_assoc, List.append_cancel_left_eq] at h
  cases n with
  | zero => exact absurd hn (by decide)
  | succ n =>
    rw [List.replicate_succ] at h
    simp only [List.cons_append, List.cons.injEq] at h
    exact absurd h.1 (by decide)

/-- C14 as the code has it: the two date fields are compared as strings.  In
both variants, for a matching input, the line written has the spaces of the
blanked sender-date chunk right after group 1 if and only if the captured
sender-date text (group 3) is the same string as the captured local-date text
(group 5). -/
theorem C14_dates_compared_as_strings (prog s : GoString) :
    (AdsMuttIndexFormatCustom2._RE_EXPECTED_PATTERN.FindStringSubmatch s ≠ [] →
      ((∃ t, AdsMuttIndexFormatCustom2.main [prog, s] =
          Outcome.exit 0
            ((AdsMuttIndexFormatCustom2._RE_EXPECTED_PATTERN.FindStringSubmatch s).getD 1 [] ++
              List.replicate
                ("[S:".toList ++
                  (AdsMuttIndexFormatCustom2._RE_EXPECTED_PATTERN.FindStringSubmatch s).getD 3 []
                  ++ (AdsMuttIndexFormatCustom2._RE_EXPECTED_PATTERN.FindStringSubmatch s).getD 4
                    []).length ' ' ++ t)) ↔
        (AdsMuttIndexFormatCustom2._RE_EXPECTED_PATTERN.FindStringSubmatch s).getD 3 [] =
          (AdsMuttIndexFormatCustom2._RE_EXPECTED_PATTERN.FindStringSubmatch s).getD 5 [])) ∧
    (MuttMsgSenderAndLocalDatetime2.RE_EXPECTED_PATTERN.FindStringSubmatch s ≠ [] →
      ((∃ t, MuttMsgSenderAndLocalDatetime2.main [prog, s] =
          Outcome.exit 0
            ((MuttMsgSenderAndLocalDatetime2.RE_EXPECTED_PATTERN.FindStringSubmatch s).getD 1 [] ++
              List.replicate
                ("[S:".toList ++
                  (MuttMsgSenderAndLocalDatetime2.RE_EXPECTED_PATTERN.FindStringSubmatch s).getD 3
                    []
                  ++ (MuttMsgSenderAndLocalDatetime2.RE_EXPECTED_PATTERN.FindStringSubmatch s).getD
                    4 []).length ' ' ++ t)) ↔
        (MuttMsgSenderAndLocalDatetime2.RE_EXPECTED_PATTERN.FindStringSubmatch s).getD 3 [] =
          (MuttMsgSenderAndLocalDatetime2.RE_EXPECTED_PATTERN.FindStringSubmatch s).getD 5 [])) := by
  constructor
  · intro hm
    obtain ⟨g1, g2, g3, g4, g5, g6, g7, g8, rest, hF, hs, _, e2, _⟩ := custom2_match_shape s hm
    subst e2
    rw [custom2_main_of_match prog s hm, hF]
    simp only [List.getD_cons_succ, List.getD_cons_zero]
    constructor
    · rintro ⟨t, ht⟩
      by_contra hne
      simp only [AdsMuttIndexFormatCustom2.datePart, List.getD_cons_succ, List.getD_cons_zero,
        hne, if_false, Outcome.exit.injEq, true_and] at ht
      refine replicate_space_ne_bracket ("[S:".toList ++ g3 ++ g4).length (by simp) g1
        "S:".toList t
        (g3 ++ g4 ++ g5 ++ g6 ++ AdsMuttIndexFormatCustom2.listPart g7 ++ g8 ++ ['\n']) ?_
      rw [← ht]
      simp
    · intro heq
      refine ⟨g5 ++ g6 ++ AdsMuttIndexFormatCustom2.listPart g7 ++ g8 ++ ['\n'], ?_⟩
      simp only [AdsMuttIndexFormatCustom2.datePart, List.getD_cons_succ, List.getD_cons_zero,
        heq, if_true, RuneCountInString, padEmpty_ofNat]
      simp
  · intro hm
    obtain ⟨g1, g2, g3, g4, g5, g6, hF, hs, _, e2, _⟩ := simple_match_shape s hm
    subst e2
    rw [simple_main_of_match prog s _ _ _ _ _ _ hF, hF]
    simp only [List.getD_cons_succ, List.getD_cons_zero]
    constructor
    · rintro ⟨t, ht⟩
      by_contra hne
      rw [if_neg hne] at ht
      simp only [Outcome.exit.injEq, true_and] at ht
      refine replicate_space_ne_bracket ("[S:".toList ++ g3 ++ g4).length (by simp) g1
        "S:".toList t (g3 ++ g4 ++ g5 ++ g6 ++ ['\n']) ?_
      rw [← ht]
      conv_lhs => rw [hs]
      simp
    · intro heq
      rw [if_pos heq]
      exact ⟨g5 ++ g6 ++ ['\n'], by simp⟩

/-- C14, at lines whose two dates are the same string. -/
theorem C14_dates_compared_as_strings_witness :
    ((∃ t, AdsMuttIndexFormatCustom2.main ["ads-mutt-index-format-custom2".toList,
          "5 N [S:2015-10-26 12:55:52] 2015-10-26 12:55:07 [LIST: dev ] x y".toList] =
        Outcome.exit 0
          ((AdsMuttIndexFormatCustom2._RE_EXPECTED_PATTERN.FindStringSubmatch
              "5 N [S:2015-10-26 12:55:52] 2015-10-26 12:55:07 [LIST: dev ] x y".toList).getD 1 []
            ++ List.replicate
              ("[S:".toList ++
                (AdsMuttIndexFormatCustom2._RE_EXPECTED_PATTERN.FindStringSubmatch
                  "5 N [S:2015-10-26 12:55:52] 2015-10-26 12:55:07 [LIST: dev ] x y".toList).getD
                    3 []
                ++ (AdsMuttIndexFormatCustom2._RE_EXPECTED_PATTERN.FindStringSubmatch
                  "5 N [S:2015-10-26 12:55:52] 2015-10-26 12:55:07 [LIST: dev ] x y".toList).getD
                    4 []).length ' ' ++ t)) ↔
      (AdsMuttIndexFormatCustom2._RE_EXPECTED_PATTERN.FindStringSubmatch
          "5 N [S:2015-10-26 12:55:52] 2015-10-26 12:55:07 [LIST: dev ] x y".toList).getD 3 [] =
        (AdsMuttIndexFormatCustom2._RE_EXPECTED_PATTERN.FindStringSubmatch
          "5 N [S:2015-10-26 12:55:52] 2015-10-26 12:55:07 [LIST: dev ] x y".toList).getD 5 []) ∧
    ((∃ t, MuttMsgSenderAndLocalDatetime2.main ["mutt-msg-sender-and-local-datetime2".toList,
          "5 N [S:2015-10-26 12:55:52] 2015-10-26 12:55:07 x y".toList] =
        Outcome.exit 0
          ((MuttMsgSenderAndLocalDatetime2.RE_EXPECTED_PATTERN.FindStringSubmatch
              "5 N [S:2015-10-26 12:55:52] 2015-10-26 12:55:07 x y".toList).getD 1 []
            ++ List.replicate
              ("[S:".toList ++
                (MuttMsgSenderAndLocalDatetime2.RE_EXPECTED_PATTERN.FindStringSubmatch
                  "5 N [S:2015-10-26 12:55:52] 2015-10-26 12:55:07 x y".toList).getD 3 []
                ++ (MuttMsgSenderAndLocalDatetime2.RE_EXPECTED_PATTERN.FindStringSubmatch
                  "5 N [S:2015-10-26 12:55:52] 2015-10-26 12:55:07 x y".toList).getD 4
                    []).length ' ' ++ t)) ↔
      (MuttMsgSenderAndLocalDatetime2.RE_EXPECTED_PATTERN.FindStringSubmatch
          "5 N [S:2015-10-26 12:55:52] 2015-10-26 12:55:07 x y".toList).getD 3 [] =
        (MuttMsgSenderAndLocalDatetime2.RE_EXPECTED_PATTERN.FindStringSubmatch
          "5 N [S:2015-10-26 12:55:52] 2015-10-26 12:55:07 x y".toList).getD 5 []) :=
  ⟨(C14_dates_compared_as_strings "ads-mutt-index-format-custom2".toList
      "5 N [S:2015-10-26 12:55:52] 2015-10-26 12:55:07 [LIST: dev ] x y".toList).1 (by decide),
   (C14_dates_compared_as_strings "mutt-msg-sender-and-local-datetime2".toList
      "5 N [S:2015-10-26 12:55:52] 2015-10-26 12:55:07 x y".toList).2 (by decide)⟩

/-- C14 as stated fails: the dates `2015-1-5 1:05` and `2015-01-05 01:05`
denote the same minute, and so do `2015-10-26  12:55` (two spaces) and
`2015-10-26 12:55`; the lines match the pattern and the sender-date chunk is
written unchanged in both variants. -/
theorem C14_same_minute_not_blanked :
    AdsMuttIndexFormatCustom2._RE_EXPECTED_PATTERN.FindStringSubmatch
        "5 N [S:2015-1-5 1:05:00] 2015-01-05 01:05:00 [LIST: ads ] x".toList =
      ["5 N [S:2015-1-5 1:05:00] 2015-01-05 01:05:00 [LIST: ads ] x".toList,
        "5 N ".toList, "[S:".toList, "2015-1-5 1:05".toList, ":00] ".toList,
        "2015-01-05 01:05".toList, ":00 ".toList, " ads ".toList, " x".toList] ∧
    AdsMuttIndexFormatCustom2.main ["ads-mutt-index-format-custom2".toList,
        "5 N [S:2015-1-5 1:05:00] 2015-01-05 01:05:00 [LIST: ads ] x".toList] =
      Outcome.exit 0 "5 N [S:2015-1-5 1:05:00] 2015-01-05 01:05:00         x\n".toList ∧
    AdsMuttIndexFormatCustom2.main ["ads-mutt-index-format-custom2".toList,
        "5 N [S:2015-10-26  12:55:52] 2015-10-26 12:55:52 [LIST: ads ] x".toList] =
      Outcome.exit 0 "5 N [S:2015-10-26  12:55:52] 2015-10-26 12:55:52         x\n".toList ∧
    MuttMsgSenderAndLocalDatetime2.RE_EXPECTED_PATTERN.FindStringSubmatch
        "5 N [S:2015-1-5 1:05:00] 2015-01-05 01:05:00 x".toList ≠ [] ∧
    MuttMsgSenderAndLocalDatetime2.main ["mutt-msg-sender-and-local-datetime2".toList,
        "5 N [S:2015-1-5 1:05:00] 2015-01-05 01:05:00 x".toList] =
      Outcome.exit 0 "5 N [S:2015-1-5 1:05:00] 2015-01-05 01:05:00 x\n".toList := by
  refine ⟨by decide, by decide, by decide, by decide, by decide⟩

theorem rest_nil_of_no_newline (rest : GoString)
    (hrest : ∀ c, rest.head? = some c → c = '\n') (h : '\n' ∉ rest) : rest = [] := by
  cases rest with
  | nil => rfl
  | cons c cs =>
    have hc := hrest c rfl
    subst hc
    exact absurd (List.mem_cons_self _ _) h

/-- C15: the emitted list field uses the observed field length minus the
length of the `LIST:` token.  For a matching input whose trimmed list name has
only ASCII characters and whose text after the list tag (group 8 and what
follows the match) has no line break, the output line has exactly 5 code
points fewer than the input line, whatever the dates and the list name. -/
theorem C15_output_is_input_minus_five (prog s : GoString)
    (hm : AdsMuttIndexFormatCustom2._RE_EXPECTED_PATTERN.FindStringSubmatch s ≠ [])
    (hascii : ∀ c ∈ TrimSpace
      ((AdsMuttIndexFormatCustom2._RE_EXPECTED_PATTERN.FindStringSubmatch s).getD 7 []),
      c.toNat < 128)
    (hnl : '\n' ∉
      (AdsMuttIndexFormatCustom2._RE_EXPECTED_PATTERN.FindStringSubmatch s).getD 8 [] ++
        s.drop
          ((AdsMuttIndexFormatCustom2._RE_EXPECTED_PATTERN.FindStringSubmatch s).getD 0
            []).length) :
    ∃ out : GoString,
      AdsMuttIndexFormatCustom2.main [prog, s] = Outcome.exit 0 (Println out) ∧
      5 ≤ RuneCountInString s ∧
      RuneCountInString out = RuneCountInString s - 5 := by
  obtain ⟨g1, g2, g3, g4, g5, g6, g7, g8, rest, hF, hs, _, _, _, _, _, _, _, _, hrest⟩ :=
    custom2_match_shape s hm
  rw [hF] at hascii hnl
  simp only [List.getD_cons_succ, List.getD_cons_zero] at hascii hnl
  have hdrop : s.drop
      (g1 ++ g2 ++ g3 ++ g4 ++ g5 ++ g6 ++ "[LIST:".toList ++ g7 ++ "]".toList ++ g8).length
      = rest := by
    conv_lhs => rw [hs]
    exact List.drop_left _ _
  rw [hdrop] at hnl
  have hrest0 : rest = [] :=
    rest_nil_of_no_newline rest hrest (fun h => hnl (List.mem_append_right _ h))
  subst hrest0
  have hslen : s.length =
      g1.length + g2.length + g3.length + g4.length + g5.length + g6.length + 6 + g7.length + 1
        + g8.length := by
    conv_lhs => rw [hs]
    simp only [List.length_append, List.length_nil]
    have e1 : "[LIST:".toList.length = 6 := rfl
    have e2 : "]".toList.length = 1 := rfl
    rw [e1, e2]
    omega
  refine ⟨AdsMuttIndexFormatCustom2.datePart
        (AdsMuttIndexFormatCustom2._RE_EXPECTED_PATTERN.FindStringSubmatch s) ++
      AdsMuttIndexFormatCustom2.listPart g7 ++ g8, ?_, ?_, ?_⟩
  · rw [custom2_main_of_match prog s hm, hF]
    rfl
  · simp only [RuneCountInString]
    omega
  · rw [hF]
    simp only [RuneCountInString, List.length_append, datePart_length,
      listPart_length g7 hascii]
    omega

/-- C15, at a short line with differing dates and a kept list name: 64 code
points in, 59 out. -/
theorem C15_output_is_input_minus_five_witness :
    AdsMuttIndexFormatCustom2.main ["ads-mutt-index-format-custom2".toList,
        "5 N [S:2015-10-26 12:55:52] 2015-10-26 13:10:05 [LIST: dev ] x y".toList] =
      Outcome.exit 0
        (Println "5 N [S:2015-10-26 12:55:52] 2015-10-26 13:10:05 [dev]   x y".toList) ∧
    RuneCountInString
        "5 N [S:2015-10-26 12:55:52] 2015-10-26 13:10:05 [LIST: dev ] x y".toList = 64 ∧
    RuneCountInString "5 N [S:2015-10-26 12:55:52] 2015-10-26 13:10:05 [dev]   x y".toList = 59 ∧
    ∃ out : GoString,
      AdsMuttIndexFormatCustom2.main ["ads-mutt-index-format-custom2".toList,
          "5 N [S:2015-10-26 12:55:52] 2015-10-26 13:10:05 [LIST: dev ] x y".toList] =
        Outcome.exit 0 (Println out) ∧
      5 ≤ RuneCountInString
        "5 N [S:2015-10-26 12:55:52] 2015-10-26 13:10:05 [LIST: dev ] x y".toList ∧
      RuneCountInString out =
        RuneCountInString
          "5 N [S:2015-10-26 12:55:52] 2015-10-26 13:10:05 [LIST: dev ] x y".toList - 5 :=
  ⟨by decide, by decide, by decide,
   C15_output_is_input_minus_five "ads-mutt-index-format-custom2".toList
     "5 N [S:2015-10-26 12:55:52] 2015-10-26 13:10:05 [LIST: dev ] x y".toList
     (by decide) (by decide) (by decide)⟩

theorem custom2_main_of_mismatch (prog s : GoString)
    (h : AdsMuttIndexFormatCustom2._RE_EXPECTED_PATTERN.FindStringSubmatch s = []) :
    AdsMuttIndexFormatCustom2.main [prog, s] = Outcome.exit 0 (s ++ ['\n']) := by
  simp [AdsMuttIndexFormatCustom2.main, h, Println]

theorem group_one_no_bracket (g1 : GoString)
    (h : PartOK [Atom.star clsSpace, Atom.plus clsDigit, Atom.plus clsSpace,
      Atom.plus (clsNot '[')] g1) : '[' ∉ g1 := by
  intro hc
  obtain ⟨a, ha, hac⟩ := PartOK_mem _ _ h '[' hc
  simp only [List.mem_cons, List.mem_singleton, List.not_mem_nil, or_false] at ha
  rcases ha with rfl | rfl | rfl | rfl <;> exact absurd hac (by decide)

/-- C16: in the extended variant group 1 cannot contain `[`, so in a matching
input the first `[` of the line is the one that opens the `[S:` tag (the input
is group 1, without any `[`, followed by `[S:`).  Consequently an input with a
`[` before its `[S:` tag, the tag being the first occurrence of `[S:` in the
line, does not match and is written unchanged. -/
theorem C16_first_bracket_opens_sender_tag (prog s : GoString) :
    (AdsMuttIndexFormatCustom2._RE_EXPECTED_PATTERN.FindStringSubmatch s ≠ [] →
      ∃ u : GoString,
        s = (AdsMuttIndexFormatCustom2._RE_EXPECTED_PATTERN.FindStringSubmatch s).getD 1 [] ++
          "[S:".toList ++ u ∧
        '[' ∉ (AdsMuttIndexFormatCustom2._RE_EXPECTED_PATTERN.FindStringSubmatch s).getD 1 []) ∧
    (∀ a b : GoString, s = a ++ "[S:".toList ++ b → '[' ∈ a →
      (∀ a2 b2 : GoString, s = a2 ++ "[S:".toList ++ b2 → a.length ≤ a2.length) →
      AdsMuttIndexFormatCustom2._RE_EXPECTED_PATTERN.FindStringSubmatch s = [] ∧
      AdsMuttIndexFormatCustom2.main [prog, s] = Outcome.exit 0 (s ++ ['\n'])) := by
  have part1 : AdsMuttIndexFormatCustom2._RE_EXPECTED_PATTERN.FindStringSubmatch s ≠ [] →
      ∃ u : GoString,
        s = (AdsMuttIndexFormatCustom2._RE_EXPECTED_PATTERN.FindStringSubmatch s).getD 1 [] ++
          "[S:".toList ++ u ∧
        '[' ∉ (AdsMuttIndexFormatCustom2._RE_EXPECTED_PATTERN.FindStringSubmatch s).getD 1 [] := by
    intro hm
    obtain ⟨g1, g2, g3, g4, g5, g6, g7, g8, rest, hF, hs, h1, e2, _⟩ := custom2_match_shape s hm
    subst e2
    rw [hF]
    simp only [List.getD_cons_succ, List.getD_cons_zero]
    refine ⟨g3 ++ g4 ++ g5 ++ g6 ++ "[LIST:".toList ++ g7 ++ "]".toList ++ g8 ++ rest, ?_,
      group_one_no_bracket g1 h1⟩
    conv_lhs => rw [hs]
    simp
  refine ⟨part1, ?_⟩
  intro a b hab hmem hfirst
  have hno : AdsMuttIndexFormatCustom2._RE_EXPECTED_PATTERN.FindStringSubmatch s = [] := by
    by_contra hm
    obtain ⟨u, hs, hg⟩ := part1 hm
    have hle := hfirst _ _ hs
    have ha : a = s.take a.length := by
      conv_rhs => rw [hab, List.append_assoc]
      simp
    have hg1 : s.take a.length =
        ((AdsMuttIndexFormatCustom2._RE_EXPECTED_PATTERN.FindStringSubmatch s).getD 1 []).take
          a.length := by
      conv_lhs => rw [hs, List.append_assoc]
      exact List.take_append_of_le_length hle
    rw [ha, hg1] at hmem
    exact hg (List.mem_of_mem_take hmem)
  exact ⟨hno, custom2_main_of_mismatch prog s hno⟩

/-- C16, at a matching line and at the same line with `[x] ` put before the
`[S:` tag. -/
theorem C16_first_bracket_opens_sender_tag_witness :
    (∃ u : GoString,
      "5 N [S:2015-10-26 12:55:52] 2015-10-26 12:55:52 [LIST: ads ] x".toList =
        (AdsMuttIndexFormatCustom2._RE_EXPECTED_PATTERN.FindStringSubmatch
          "5 N [S:2015-10-26 12:55:52] 2015-10-26 12:55:52 [LIST: ads ] x".toList).getD 1 [] ++
          "[S:".toList ++ u ∧
      '[' ∉ (AdsMuttIndexFormatCustom2._RE_EXPECTED_PATTERN.FindStringSubmatch
          "5 N [S:2015-10-26 12:55:52] 2015-10-26 12:55:52 [LIST: ads ] x".toList).getD 1 []) ∧
    '[' ∈ "5 N [x] ".toList ∧
    AdsMuttIndexFormatCustom2._RE_EXPECTED_PATTERN.FindStringSubmatch
        "5 N [x] [S:2015-10-26 12:55:52] 2015-10-26 12:55:52 [LIST: ads ] x".toList = [] ∧
    AdsMuttIndexFormatCustom2.main ["ads-mutt-index-format-custom2".toList,
        "5 N [x] [S:2015-10-26 12:55:52] 2015-10-26 12:55:52 [LIST: ads ] x".toList] =
      Outcome.exit 0
        ("5 N [x] [S:2015-10-26 12:55:52] 2015-10-26 12:55:52 [LIST: ads ] x".toList ++ ['\n']) :=
  ⟨(C16_first_bracket_opens_sender_tag "ads-mutt-index-format-custom2".toList
      "5 N [S:2015-10-26 12:55:52] 2015-10-26 12:55:52 [LIST: ads ] x".toList).1 (by decide),
   by decide,
   (C16_first_bracket_opens_sender_tag "ads-mutt-index-format-custom2".toList
      "5 N [x] [S:2015-10-26 12:55:52] 2015-10-26 12:55:52 [LIST: ads ] x".toList).2
      "5 N [x] ".toList "2015-10-26 12:55:52] 2015-10-26 12:55:52 [LIST: ads ] x".toList
      (by decide) (by decide)
      (by
        intro a2 b2 h
        by_contra hlt
        have hk : ("5 N [x] [S:2015-10-26 12:55:52] 2015-10-26 12:55:52 [LIST: ads ] x".toList.drop
            a2.length).take 3 = "[S:".toList := by
          rw [h, List.append_assoc, List.drop_left]
          rfl
        have key : ∀ k, k < 8 →
            ("5 N [x] [S:2015-10-26 12:55:52] 2015-10-26 12:55:52 [LIST: ads ] x".toList.drop
              k).take 3 ≠ "[S:".toList := by decide
        exact key a2.length (by simpa using hlt) hk)⟩

/-! ## The matcher on two inputs with the same class profile -/

theorem runLen_congr (R : Char → Char → Prop) (p : Char → Bool)
    (hp : ∀ c d, R c d → p c = p d) :
    ∀ (s s2 : GoString), List.Forall₂ R s s2 → runLen p s = runLen p s2 := by
  intro s s2 h
  induction h with
  | nil => rfl
  | cons hcd _ ih =>
    simp only [runLen, hp _ _ hcd, ih]

theorem tryDown_rel (R : Char → Char → Prop)
    (f f2 : Nat → Option (List GoString × GoString)) (lo : Nat)
    (h : ∀ k, ResultRel R (f k) (f2 k)) :
    ∀ d, ResultRel R (tryDown f lo d) (tryDown f2 lo d) := by
  intro d
  induction d with
  | zero => exact h lo
  | succ d ih =>
    simp only [tryDown]
    have hk := h (lo + (d + 1))
    cases h1 : f (lo + (d + 1)) with
    | none =>
      cases h2 : f2 (lo + (d + 1)) with
      | none => exact ih
      | some r2 => rw [h1, h2] at hk; exact absurd hk (by simp [ResultRel])
    | some r =>
      cases h2 : f2 (lo + (d + 1)) with
      | none => rw [h1, h2] at hk; exact absurd hk (by simp [ResultRel])
      | some r2 => rw [h1, h2] at hk; exact hk

theorem matchAtoms_congr (R : Char → Char → Prop) (e : Bool) :
    ∀ (as : List Atom), (∀ a ∈ as, ∀ c d, R c d → a.cls c = a.cls d) →
      ∀ (s s2 : GoString), List.Forall₂ R s s2 →
        ResultRel R (matchAtoms e as s) (matchAtoms e as s2) := by
  intro as
  induction as with
  | nil =>
    intro _ s s2 h
    cases h with
    | nil =>
      cases e <;> simp [matchAtoms, ResultRel]
    | cons hcd hrest =>
      cases e
      · simp only [matchAtoms, Bool.false_and, Bool.false_eq_true, if_false, ResultRel]
        exact ⟨List.Forall₂.nil, List.Forall₂.cons hcd hrest⟩
      · simp [matchAtoms, ResultRel]
  | cons a as ih =>
    intro hcls s s2 h
    have hrun : runLen a.cls s = runLen a.cls s2 :=
      runLen_congr R a.cls (hcls a (List.mem_cons_self _ _)) s s2 h
    simp only [matchAtoms, ← hrun]
    split
    · simp [ResultRel]
    · apply tryDown_rel
      intro k
      have hk := ih (fun b hb => hcls b (List.mem_cons_of_mem _ hb)) (s.drop k) (s2.drop k)
        (List.forall₂_drop k h)
      cases h1 : matchAtoms e as (List.drop k s) with
      | none =>
        cases h2 : matchAtoms e as (List.drop k s2) with
        | none => simp [ResultRel]
        | some r2 => rw [h1, h2] at hk; exact absurd hk (by simp [ResultRel])
      | some r =>
        cases h2 : matchAtoms e as (List.drop k s2) with
        | none => rw [h1, h2] at hk; exact absurd hk (by simp [ResultRel])
        | some r2 =>
          rw [h1, h2] at hk
          simp only [Option.map_some', ResultRel] at hk ⊢
          exact ⟨List.Forall₂.cons (List.forall₂_take k h) hk.1, hk.2⟩

theorem forall₂_flatten (R : Char → Char → Prop) :
    ∀ (l l2 : List GoString), List.Forall₂ (List.Forall₂ R) l l2 →
      List.Forall₂ R l.flatten l2.flatten := by
  intro l l2 h
  induction h with
  | nil => exact List.Forall₂.nil
  | cons hx _ ih =>
    simp only [List.flatten_cons]
    exact List.rel_append hx ih

theorem glue_rel (R : Char → Char → Prop) :
    ∀ (ns : List Nat) (segs segs2 : List GoString), List.Forall₂ (List.Forall₂ R) segs segs2 →
      List.Forall₂ (List.Forall₂ R) (glue ns segs) (glue ns segs2) := by
  intro ns
  induction ns with
  | nil => intro _ _ _; exact List.Forall₂.nil
  | cons n ns ih =>
    intro segs segs2 h
    simp only [glue]
    exact List.Forall₂.cons (forall₂_flatten R _ _ (List.forall₂_take n h))
      (ih _ _ (List.forall₂_drop n h))

theorem captured_rel (R : Char → Char → Prop) :
    ∀ (ps : List (Bool × List Atom)) (ts ts2 : List GoString),
      List.Forall₂ (List.Forall₂ R) ts ts2 →
      List.Forall₂ (List.Forall₂ R) (captured ps ts) (captured ps ts2) := by
  intro ps
  induction ps with
  | nil => intro ts ts2 _; simp [captured]
  | cons p ps ih =>
    intro ts ts2 h
    obtain ⟨b, as⟩ := p
    cases h with
    | nil => simp [captured]
    | cons hx hrest =>
      cases b
      · simpa [captured] using ih _ _ hrest
      · simpa [captured] using ⟨hx, ih _ _ hrest⟩

/-- The submatch slices of two inputs with the same class profile have the
same shape: both empty, or texts related position by position. -/
theorem FindStringSubmatch_congr (R : Char → Char → Prop) (re : Regexp)
    (hcls : ∀ a ∈ (re.parts.map Prod.snd).flatten, ∀ c d, R c d → a.cls c = a.cls d)
    (s s2 : GoString) (h : List.Forall₂ R s s2) :
    List.Forall₂ (List.Forall₂ R) (re.FindStringSubmatch s) (re.FindStringSubmatch s2) := by
  have hm := matchAtoms_congr R re.anchorEnd _ hcls s s2 h
  unfold Regexp.FindStringSubmatch
  cases h1 : matchAtoms re.anchorEnd (re.parts.map Prod.snd).flatten s with
  | none =>
    cases h2 : matchAtoms re.anchorEnd (re.parts.map Prod.snd).flatten s2 with
    | none => exact List.Forall₂.nil
    | some r2 => rw [h1, h2] at hm; exact absurd hm (by simp [ResultRel])
  | some r =>
    cases h2 : matchAtoms re.anchorEnd (re.parts.map Prod.snd).flatten s2 with
    | none => rw [h1, h2] at hm; exact absurd hm (by simp [ResultRel])
    | some r2 =>
      rw [h1, h2] at hm
      obtain ⟨segs, rest⟩ := r
      obtain ⟨segs2, rest2⟩ := r2
      simp only [ResultRel] at hm
      have hg := glue_rel R (re.parts.map (fun p => p.2.length)) segs segs2 hm.1
      exact List.Forall₂.cons (forall₂_flatten R _ _ hg) (captured_rel R _ _ _ hg)

theorem SameOrDigits_refl (s : GoString) : List.Forall₂ SameOrDigits s s := by
  induction s with
  | nil => exact List.Forall₂.nil
  | cons x xs ih => exact List.Forall₂.cons (Or.inl rfl) ih

theorem SameOrDigits_digits :
    ∀ (a b : GoString), a.length = b.length → (∀ c ∈ a, clsDigit c = true) →
      (∀ c ∈ b, clsDigit c = true) → List.Forall₂ SameOrDigits a b := by
  intro a
  induction a with
  | nil =>
    intro b hl _ _
    cases b with
    | nil => exact List.Forall₂.nil
    | cons y ys => simp at hl
  | cons x xs ih =>
    intro b hl ha hb
    cases b with
    | nil => simp at hl
    | cons y ys =>
      refine List.Forall₂.cons
        (Or.inr ⟨ha x (List.mem_cons_self _ _), hb y (List.mem_cons_self _ _)⟩)
        (ih ys (by simpa using hl) (fun c hc => ha c (List.mem_cons_of_mem _ hc))
          (fun c hc => hb c (List.mem_cons_of_mem _ hc)))

theorem respects_of_digit_const (p : Char → Bool) (lo : Nat) (hi : Option Nat)
    (hp : ∀ c d, clsDigit c = true → clsDigit d = true → p c = p d) :
    Respects ⟨p, lo, hi⟩ := by
  intro c d h
  rcases h with rfl | ⟨hc, hd⟩
  · rfl
  · exact hp c d hc hd

theorem clsDigit_range (c : Char) (h : clsDigit c = true) : 48 ≤ c.toNat ∧ c.toNat ≤ 57 := by
  simpa [clsDigit] using h

theorem respects_space (lo : Nat) (hi : Option Nat) : Respects ⟨clsSpace, lo, hi⟩ := by
  apply respects_of_digit_const
  intro c d hc hd
  have h1 := clsDigit_range c hc
  have h2 := clsDigit_range d hd
  have e1 : clsSpace c = false := by
    simp only [clsSpace, Bool.or_eq_false_iff, Bool.and_eq_false_imp, decide_eq_true_eq,
      decide_eq_false_iff_not, beq_eq_false_iff_ne]
    omega
  have e2 : clsSpace d = false := by
    simp only [clsSpace, Bool.or_eq_false_iff, Bool.and_eq_false_imp, decide_eq_true_eq,
      decide_eq_false_iff_not, beq_eq_false_iff_ne]
    omega
  rw [e1, e2]

theorem respects_digit (lo : Nat) (hi : Option Nat) : Respects ⟨clsDigit, lo, hi⟩ := by
  apply respects_of_digit_const
  intro c d hc hd
  rw [hc, hd]

theorem ne_of_not_digit (x c : Char) (hx : clsDigit x = false) (hc : clsDigit c = true) :
    c ≠ x := by
  intro h
  rw [h, hx] at hc
  exact absurd hc (by decide)

theorem respects_not (x : Char) (hx : clsDigit x = false) (lo : Nat) (hi : Option Nat) :
    Respects ⟨clsNot x, lo, hi⟩ := by
  apply respects_of_digit_const
  intro c d hc hd
  have h1 : (c != x) = true := bne_iff_ne.2 (ne_of_not_digit x c hx hc)
  have h2 : (d != x) = true := bne_iff_ne.2 (ne_of_not_digit x d hx hd)
  simp only [clsNot, h1, h2]

theorem respects_lit (x : Char) (hx : clsDigit x = false) (lo : Nat) (hi : Option Nat) :
    Respects ⟨clsLit x, lo, hi⟩ := by
  apply respects_of_digit_const
  intro c d hc hd
  have h1 : (c == x) = false := beq_eq_false_iff_ne.2 (ne_of_not_digit x c hx hc)
  have h2 : (d == x) = false := beq_eq_false_iff_ne.2 (ne_of_not_digit x d hx hd)
  simp only [clsLit, h1, h2]

theorem respects_dot (lo : Nat) (hi : Option Nat) : Respects ⟨clsDot, lo, hi⟩ :=
  respects_not '\n' (by decide) lo hi

theorem custom2_pattern_respects :
    ∀ a ∈ (AdsMuttIndexFormatCustom2._RE_EXPECTED_PATTERN.parts.map Prod.snd).flatten,
      ∀ c d, SameOrDigits c d → a.cls c = a.cls d := by
  have h : ∀ a ∈ (AdsMuttIndexFormatCustom2._RE_EXPECTED_PATTERN.parts.map Prod.snd).flatten,
      Respects a := by
    simp only [AdsMuttIndexFormatCustom2._RE_EXPECTED_PATTERN, dateAtoms, List.map_cons,
      List.map_nil, List.flatten_cons, List.flatten_nil, List.cons_append, List.nil_append,
      List.append_nil, List.forall_mem_cons, List.not_mem_nil, false_imp_iff, forall_const,
      and_true]
    and_intros
    all_goals
      first
        | exact respects_space _ _
        | exact respects_digit _ _
        | exact respects_not _ (by decide) _ _
        | exact respects_lit _ (by decide) _ _
        | exact respects_dot _ _
        | exact fun _ => trivial
  exact h

theorem simple_pattern_respects :
    ∀ a ∈ (MuttMsgSenderAndLocalDatetime2.RE_EXPECTED_PATTERN.parts.map Prod.snd).flatten,
      ∀ c d, SameOrDigits c d → a.cls c = a.cls d := by
  have h : ∀ a ∈ (MuttMsgSenderAndLocalDatetime2.RE_EXPECTED_PATTERN.parts.map Prod.snd).flatten,
      Respects a := by
    simp only [MuttMsgSenderAndLocalDatetime2.RE_EXPECTED_PATTERN, dateAtoms, List.map_cons,
      List.map_nil, List.flatten_cons, List.flatten_nil, List.cons_append, List.nil_append,
      List.append_nil, List.forall_mem_cons, List.not_mem_nil, false_imp_iff, forall_const,
      and_true]
    and_intros
    all_goals
      first
        | exact respects_space _ _
        | exact respects_digit _ _
        | exact respects_not _ (by decide) _ _
        | exact respects_lit _ (by decide) _ _
        | exact respects_dot _ _
        | exact fun _ => trivial
  exact h

/-- Two lists of texts of pairwise equal lengths that make up the same string
are equal. -/
theorem flatten_inj_of_lengths :
    ∀ (l l2 : List GoString) (r r2 : GoString),
      List.Forall₂ (fun a b => a.length = b.length) l l2 →
      l.flatten ++ r = l2.flatten ++ r2 → l = l2 ∧ r = r2 := by
  intro l l2 r r2 h
  induction h with
  | nil => intro he; exact ⟨rfl, by simpa using he⟩
  | cons hx _ ih =>
    intro he
    simp only [List.flatten_cons, List.append_assoc] at he
    obtain ⟨e1, e2⟩ := List.append_inj he hx
    obtain ⟨e3, e4⟩ := ih e2
    exact ⟨by rw [e1, e3], e4⟩

theorem SameOrDigits_swap (pre secs secs2 post : GoString) (hlen : secs2.length = secs.length)
    (hd : ∀ c ∈ secs, clsDigit c = true) (hd2 : ∀ c ∈ secs2, clsDigit c = true) :
    List.Forall₂ SameOrDigits (pre ++ secs ++ post) (pre ++ secs2 ++ post) :=
  List.rel_append
    (List.rel_append (SameOrDigits_refl pre) (SameOrDigits_digits secs secs2 hlen.symm hd hd2))
    (SameOrDigits_refl post)

/-- Extended variant: other digits in the seconds of the sender date give the
same groups, but for the seconds inside group 4. -/
theorem custom2_seconds_swap (s pre secs secs2 post ws w g1 g2 g3 g5 g6 g7 g8 : GoString)
    (hF : AdsMuttIndexFormatCustom2._RE_EXPECTED_PATTERN.FindStringSubmatch s =
      [w, g1, g2, g3, ':' :: (secs ++ ']' :: ws), g5, g6, g7, g8])
    (hs : s = pre ++ secs ++ post) (hpre : pre = g1 ++ g2 ++ g3 ++ [':'])
    (hlen : secs2.length = secs.length)
    (hd : ∀ c ∈ secs, clsDigit c = true) (hd2 : ∀ c ∈ secs2, clsDigit c = true) :
    ∃ w2, AdsMuttIndexFormatCustom2._RE_EXPECTED_PATTERN.FindStringSubmatch
        (pre ++ secs2 ++ post) =
      [w2, g1, g2, g3, ':' :: (secs2 ++ ']' :: ws), g5, g6, g7, g8] := by
  have hrel := SameOrDigits_swap pre secs secs2 post hlen hd hd2
  rw [← hs] at hrel
  have hc := FindStringSubmatch_congr SameOrDigits _ custom2_pattern_respects _ _ hrel
  have hm : AdsMuttIndexFormatCustom2._RE_EXPECTED_PATTERN.FindStringSubmatch s ≠ [] := by
    rw [hF]; exact List.cons_ne_nil _ _
  have hm2 : AdsMuttIndexFormatCustom2._RE_EXPECTED_PATTERN.FindStringSubmatch
      (pre ++ secs2 ++ post) ≠ [] := by
    intro h0
    rw [hF, h0] at hc
    cases hc
  obtain ⟨a1, a2, a3, a4, a5, a6, a7, a8, rest, hFa, hsa, _⟩ := custom2_match_shape s hm
  obtain ⟨b1, b2, b3, b4, b5, b6, b7, b8, rest2, hFb, hsb, _⟩ :=
    custom2_match_shape _ hm2
  rw [hF] at hFa
  simp only [List.cons.injEq, and_true] at hFa
  obtain ⟨-, rfl, rfl, rfl, rfl, rfl, rfl, rfl, rfl⟩ := hFa
  rw [hF, hFb] at hc
  simp only [List.forall₂_cons, List.forall₂_nil_left_iff, and_true] at hc
  obtain ⟨-, c1, c2, c3, c4, c5, c6, c7, c8⟩ := hc
  have hpost : post = ']' :: ws ++ (g5 ++ g6 ++ "[LIST:".toList ++ g7 ++ "]".toList ++ g8 ++ rest)
      := by
    have h := hsa
    rw [hs, hpre] at h
    simp only [List.append_assoc, List.cons_append, List.nil_append, List.append_cancel_left_eq,
      List.cons.injEq, true_and] at h
    rw [h]
    simp
  have hflat : [g1, g2, g3, ':' :: (secs2 ++ ']' :: ws), g5, g6, "[LIST:".toList, g7, "]".toList,
      g8].flatten ++ rest = [b1, b2, b3, b4, b5, b6, "[LIST:".toList, b7, "]".toList,
      b8].flatten ++ rest2 := by
    have h := hsb
    rw [hpre, hpost] at h
    simp only [List.flatten_cons, List.flatten_nil, List.append_nil]
    simp only [List.append_assoc, List.cons_append, List.nil_append] at h ⊢
    exact h
  have hl4 : (':' :: (secs2 ++ ']' :: ws)).length = b4.length := by
    rw [← c4.length_eq]
    simp [hlen]
  obtain ⟨hlist, -⟩ := flatten_inj_of_lengths _ _ _ _
    (List.Forall₂.cons c1.length_eq (List.Forall₂.cons c2.length_eq
      (List.Forall₂.cons c3.length_eq (List.Forall₂.cons hl4 (List.Forall₂.cons c5.length_eq
        (List.Forall₂.cons c6.length_eq (List.Forall₂.cons rfl (List.Forall₂.cons c7.length_eq
          (List.Forall₂.cons rfl (List.Forall₂.cons c8.length_eq List.Forall₂.nil))))))))))
    hflat
  simp only [List.cons.injEq, and_true, true_and] at hlist
  obtain ⟨rfl, rfl, rfl, rfl, rfl, rfl, rfl, rfl⟩ := hlist
  exact ⟨_, hFb⟩

/-- Simple variant: other digits in the seconds of the sender date give the
same groups, but for the seconds inside group 4. -/
theorem simple_seconds_swap (s pre secs secs2 post ws w g1 g2 g3 g5 g6 : GoString)
    (hF : MuttMsgSenderAndLocalDatetime2.RE_EXPECTED_PATTERN.FindStringSubmatch s =
      [w, g1, g2, g3, ':' :: (secs ++ ']' :: ws), g5, g6])
    (hs : s = pre ++ secs ++ post) (hpre : pre = g1 ++ g2 ++ g3 ++ [':'])
    (hlen : secs2.length = secs.length)
    (hd : ∀ c ∈ secs, clsDigit c = true) (hd2 : ∀ c ∈ secs2, clsDigit c = true) :
    MuttMsgSenderAndLocalDatetime2.RE_EXPECTED_PATTERN.FindStringSubmatch
        (pre ++ secs2 ++ post) =
      [pre ++ secs2 ++ post, g1, g2, g3, ':' :: (secs2 ++ ']' :: ws), g5, g6] := by
  have hrel := SameOrDigits_swap pre secs secs2 post hlen hd hd2
  rw [← hs] at hrel
  have hc := FindStringSubmatch_congr SameOrDigits _ simple_pattern_respects _ _ hrel
  have hm : MuttMsgSenderAndLocalDatetime2.RE_EXPECTED_PATTERN.FindStringSubmatch s ≠ [] := by
    rw [hF]; exact List.cons_ne_nil _ _
  have hm2 : MuttMsgSenderAndLocalDatetime2.RE_EXPECTED_PATTERN.FindStringSubmatch
      (pre ++ secs2 ++ post) ≠ [] := by
    intro h0
    rw [hF, h0] at hc
    cases hc
  obtain ⟨a1, a2, a3, a4, a5, a6, hFa, hsa, _⟩ := simple_match_shape s hm
  obtain ⟨b1, b2, b3, b4, b5, b6, hFb, hsb, _⟩ := simple_match_shape _ hm2
  rw [hF] at hFa
  simp only [List.cons.injEq, and_true] at hFa
  obtain ⟨-, rfl, rfl, rfl, rfl, rfl, rfl⟩ := hFa
  rw [hF, hFb] at hc
  simp only [List.forall₂_cons, List.forall₂_nil_left_iff, and_true] at hc
  obtain ⟨-, c1, c2, c3, c4, c5, c6⟩ := hc
  have hpost : post = ']' :: ws ++ (g5 ++ g6) := by
    have h := hsa
    rw [hs, hpre] at h
    simp only [List.append_assoc, List.cons_append, List.nil_append, List.append_cancel_left_eq,
      List.cons.injEq, true_and] at h
    rw [h]
    simp
  have hflat : [g1, g2, g3, ':' :: (secs2 ++ ']' :: ws), g5, g6].flatten ++ [] =
      [b1, b2, b3, b4, b5, b6].flatten ++ [] := by
    have h := hsb
    rw [hpre, hpost] at h
    simp only [List.flatten_cons, List.flatten_nil, List.append_nil]
    simp only [List.append_assoc, List.cons_append, List.nil_append] at h ⊢
    exact h
  have hl4 : (':' :: (secs2 ++ ']' :: ws)).length = b4.length := by
    rw [← c4.length_eq]
    simp [hlen]
  obtain ⟨hlist, -⟩ := flatten_inj_of_lengths _ _ _ _
    (List.Forall₂.cons c1.length_eq (List.Forall₂.cons c2.length_eq
      (List.Forall₂.cons c3.length_eq (List.Forall₂.cons hl4 (List.Forall₂.cons c5.length_eq
        (List.Forall₂.cons c6.length_eq List.Forall₂.nil))))))
    hflat
  simp only [List.cons.injEq, and_true] at hlist
  obtain ⟨rfl, rfl, rfl, rfl, rfl, rfl⟩ := hlist
  exact hFb

theorem custom2_main_prog (prog s : GoString) :
    AdsMuttIndexFormatCustom2.main [prog, s] = AdsMuttIndexFormatCustom2.main [[], s] := rfl

theorem simple_main_prog (prog s : GoString) :
    MuttMsgSenderAndLocalDatetime2.main [prog, s] =
      MuttMsgSenderAndLocalDatetime2.main [[], s] := rfl

/-- C13: the seconds are ignored, by truncation.  In both variants, when a
matching input is changed only in the digits of the seconds of the sender
date (as many digits as before), the changed input matches with the same
groups but for these digits, so its sender-date chunk is blanked exactly when
that of the original is, and in that case the two runs give the same result.
Nothing is rounded: sender time 12:55:59 against local time 12:56:00 is not
blanked, 12:55:07 against 12:55:52 is. -/
theorem C13_seconds_ignored (prog s pre secs secs2 post ws : GoString)
    (hs : s = pre ++ secs ++ post) (hlen : secs2.length = secs.length)
    (hd : ∀ c ∈ secs, clsDigit c = true) (hd2 : ∀ c ∈ secs2, clsDigit c = true) :
    (AdsMuttIndexFormatCustom2._RE_EXPECTED_PATTERN.FindStringSubmatch s ≠ [] →
      pre = (AdsMuttIndexFormatCustom2._RE_EXPECTED_PATTERN.FindStringSubmatch s).getD 1 [] ++
        (AdsMuttIndexFormatCustom2._RE_EXPECTED_PATTERN.FindStringSubmatch s).getD 2 [] ++
        (AdsMuttIndexFormatCustom2._RE_EXPECTED_PATTERN.FindStringSubmatch s).getD 3 [] ++ [':'] →
      (AdsMuttIndexFormatCustom2._RE_EXPECTED_PATTERN.FindStringSubmatch s).getD 4 [] =
        ':' :: (secs ++ ']' :: ws) →
      AdsMuttIndexFormatCustom2._RE_EXPECTED_PATTERN.FindStringSubmatch (pre ++ secs2 ++ post)
        ≠ [] ∧
      (∀ i, i ≠ 0 → i ≠ 4 →
        (AdsMuttIndexFormatCustom2._RE_EXPECTED_PATTERN.FindStringSubmatch
          (pre ++ secs2 ++ post)).getD i [] =
        (AdsMuttIndexFormatCustom2._RE_EXPECTED_PATTERN.FindStringSubmatch s).getD i []) ∧
      (AdsMuttIndexFormatCustom2._RE_EXPECTED_PATTERN.FindStringSubmatch
          (pre ++ secs2 ++ post)).getD 4 [] = ':' :: (secs2 ++ ']' :: ws) ∧
      ((AdsMuttIndexFormatCustom2._RE_EXPECTED_PATTERN.FindStringSubmatch (pre ++ secs2 ++ post)).getD 3 [] =
          (AdsMuttIndexFormatCustom2._RE_EXPECTED_PATTERN.FindStringSubmatch (pre ++ secs2 ++ post)).getD 5 [] ↔
        (AdsMuttIndexFormatCustom2._RE_EXPECTED_PATTERN.FindStringSubmatch s).getD 3 [] =
          (AdsMuttIndexFormatCustom2._RE_EXPECTED_PATTERN.FindStringSubmatch s).getD 5 []) ∧
      ((AdsMuttIndexFormatCustom2._RE_EXPECTED_PATTERN.FindStringSubmatch s).getD 3 [] =
          (AdsMuttIndexFormatCustom2._RE_EXPECTED_PATTERN.FindStringSubmatch s).getD 5 [] →
        AdsMuttIndexFormatCustom2.main [prog, pre ++ secs2 ++ post] =
          AdsMuttIndexFormatCustom2.main [prog, s])) ∧
    (MuttMsgSenderAndLocalDatetime2.RE_EXPECTED_PATTERN.FindStringSubmatch s ≠ [] →
      pre = (MuttMsgSenderAndLocalDatetime2.RE_EXPECTED_PATTERN.FindStringSubmatch s).getD 1 [] ++
        (MuttMsgSenderAndLocalDatetime2.RE_EXPECTED_PATTERN.FindStringSubmatch s).getD 2 [] ++
        (MuttMsgSenderAndLocalDatetime2.RE_EXPECTED_PATTERN.FindStringSubmatch s).getD 3 [] ++ [':']
        →
      (MuttMsgSenderAndLocalDatetime2.RE_EXPECTED_PATTERN.FindStringSubmatch s).getD 4 [] =
        ':' :: (secs ++ ']' :: ws) →
      MuttMsgSenderAndLocalDatetime2.RE_EXPECTED_PATTERN.FindStringSubmatch (pre ++ secs2 ++ post)
        ≠ [] ∧
      (∀ i, i ≠ 0 → i ≠ 4 →
        (MuttMsgSenderAndLocalDatetime2.RE_EXPECTED_PATTERN.FindStringSubmatch
          (pre ++ secs2 ++ post)).getD i [] =
        (MuttMsgSenderAndLocalDatetime2.RE_EXPECTED_PATTERN.FindStringSubmatch s).getD i []) ∧
      (MuttMsgSenderAndLocalDatetime2.RE_EXPECTED_PATTERN.FindStringSubmatch
          (pre ++ secs2 ++ post)).getD 4 [] = ':' :: (secs2 ++ ']' :: ws) ∧
      ((MuttMsgSenderAndLocalDatetime2.RE_EXPECTED_PATTERN.FindStringSubmatch (pre ++ secs2 ++ post)).getD 3 [] =
          (MuttMsgSenderAndLocalDatetime2.RE_EXPECTED_PATTERN.FindStringSubmatch (pre ++ secs2 ++ post)).getD 5 [] ↔
        (MuttMsgSenderAndLocalDatetime2.RE_EXPECTED_PATTERN.FindStringSubmatch s).getD 3 [] =
          (MuttMsgSenderAndLocalDatetime2.RE_EXPECTED_PATTERN.FindStringSubmatch s).getD 5 []) ∧
      ((MuttMsgSenderAndLocalDatetime2.RE_EXPECTED_PATTERN.FindStringSubmatch s).getD 3 [] =
          (MuttMsgSenderAndLocalDatetime2.RE_EXPECTED_PATTERN.FindStringSubmatch s).getD 5 [] →
        MuttMsgSenderAndLocalDatetime2.main [prog, pre ++ secs2 ++ post] =
          MuttMsgSenderAndLocalDatetime2.main [prog, s])) ∧
    AdsMuttIndexFormatCustom2.main [prog,
        "5 N [S:2015-10-26 12:55:59] 2015-10-26 12:56:00 [LIST: ads ] x".toList] =
      Outcome.exit 0 "5 N [S:2015-10-26 12:55:59] 2015-10-26 12:56:00         x\n".toList ∧
    AdsMuttIndexFormatCustom2.main [prog,
        "5 N [S:2015-10-26 12:55:07] 2015-10-26 12:55:52 [LIST: ads ] x".toList] =
      Outcome.exit 0 "5 N                         2015-10-26 12:55:52         x\n".toList ∧
    MuttMsgSenderAndLocalDatetime2.main [prog,
        "5 N [S:2015-10-26 12:55:59] 2015-10-26 12:56:00 x".toList] =
      Outcome.exit 0 "5 N [S:2015-10-26 12:55:59] 2015-10-26 12:56:00 x\n".toList ∧
    MuttMsgSenderAndLocalDatetime2.main [prog,
        "5 N [S:2015-10-26 12:55:07] 2015-10-26 12:55:52 x".toList] =
      Outcome.exit 0 "5 N                         2015-10-26 12:55:52 x\n".toList := by
  refine ⟨?_, ?_, ?_, ?_, ?_, ?_⟩
  · intro hm hpre h4
    obtain ⟨g1, g2, g3, g4, g5, g6, g7, g8, rest, hF, -⟩ := custom2_match_shape s hm
    rw [hF] at hpre h4
    simp only [List.getD_cons_succ, List.getD_cons_zero] at hpre h4
    subst h4
    obtain ⟨w2, hF2⟩ := custom2_seconds_swap s pre secs secs2 post ws _ g1 g2 g3 g5 g6 g7 g8
      hF hs hpre hlen hd hd2
    refine ⟨by rw [hF2]; exact List.cons_ne_nil _ _, ?_, by rw [hF2]; rfl,
      by rw [hF2, hF]; exact Iff.rfl, ?_⟩
    · intro i hi0 hi4
      rw [hF2, hF]
      match i, hi0, hi4 with
      | 1, _, _ => rfl
      | 2, _, _ => rfl
      | 3, _, _ => rfl
      | 5, _, _ => rfl
      | 6, _, _ => rfl
      | 7, _, _ => rfl
      | 8, _, _ => rfl
      | n + 9, _, _ => rfl
    · intro heq
      rw [hF] at heq
      simp only [List.getD_cons_succ, List.getD_cons_zero] at heq
      rw [custom2_main_of_match prog s hm,
        custom2_main_of_match prog _ (by rw [hF2]; exact List.cons_ne_nil _ _), hF, hF2]
      simp only [AdsMuttIndexFormatCustom2.datePart, List.getD_cons_succ, List.getD_cons_zero,
        heq, if_true, RuneCountInString, List.length_append, List.length_cons, hlen]
  · intro hm hpre h4
    obtain ⟨g1, g2, g3, g4, g5, g6, hF, -⟩ := simple_match_shape s hm
    rw [hF] at hpre h4
    simp only [List.getD_cons_succ, List.getD_cons_zero] at hpre h4
    subst h4
    have hF2 := simple_seconds_swap s pre secs secs2 post ws _ g1 g2 g3 g5 g6
      hF hs hpre hlen hd hd2
    refine ⟨by rw [hF2]; exact List.cons_ne_nil _ _, ?_, by rw [hF2]; rfl,
      by rw [hF2, hF]; exact Iff.rfl, ?_⟩
    · intro i hi0 hi4
      rw [hF2, hF]
      match i, hi0, hi4 with
      | 1, _, _ => rfl
      | 2, _, _ => rfl
      | 3, _, _ => rfl
      | 5, _, _ => rfl
      | 6, _, _ => rfl
      | n + 7, _, _ => rfl
    · intro heq
      rw [hF] at heq
      simp only [List.getD_cons_succ, List.getD_cons_zero] at heq
      rw [simple_main_of_match prog s _ _ _ _ _ _ hF,
        simple_main_of_match prog _ _ _ _ _ _ _ hF2, if_pos heq, if_pos heq]
      simp only [List.length_append, List.length_cons, hlen]
  · rw [custom2_main_prog]; decide
  · rw [custom2_main_prog]; decide
  · rw [simple_main_prog]; decide
  · rw [simple_main_prog]; decide

/-- C13, at a line whose dates agree to the minute, the seconds `52` of the
sender date being replaced by `09`: both variants match either line and write
the same output for both. -/
theorem C13_seconds_ignored_witness :
    (AdsMuttIndexFormatCustom2._RE_EXPECTED_PATTERN.FindStringSubmatch
        ("5 N [S:2015-10-26 12:55:".toList ++ "09".toList ++
            "] 2015-10-26 12:55:07 [LIST: dev ] x y".toList) ≠ [] ∧
      (∀ i, i ≠ 0 → i ≠ 4 →
        (AdsMuttIndexFormatCustom2._RE_EXPECTED_PATTERN.FindStringSubmatch
          ("5 N [S:2015-10-26 12:55:".toList ++ "09".toList ++
            "] 2015-10-26 12:55:07 [LIST: dev ] x y".toList)).getD i [] =
        (AdsMuttIndexFormatCustom2._RE_EXPECTED_PATTERN.FindStringSubmatch
          "5 N [S:2015-10-26 12:55:52] 2015-10-26 12:55:07 [LIST: dev ] x y".toList).getD i []) ∧
      (AdsMuttIndexFormatCustom2._RE_EXPECTED_PATTERN.FindStringSubmatch
          ("5 N [S:2015-10-26 12:55:".toList ++ "09".toList ++
            "] 2015-10-26 12:55:07 [LIST: dev ] x y".toList)).getD 4 [] = ':' :: ("09".toList ++ ']' :: " ".toList) ∧
      ((AdsMuttIndexFormatCustom2._RE_EXPECTED_PATTERN.FindStringSubmatch
          ("5 N [S:2015-10-26 12:55:".toList ++ "09".toList ++
            "] 2015-10-26 12:55:07 [LIST: dev ] x y".toList)).getD 3 [] =
        (AdsMuttIndexFormatCustom2._RE_EXPECTED_PATTERN.FindStringSubmatch
          ("5 N [S:2015-10-26 12:55:".toList ++ "09".toList ++
            "] 2015-10-26 12:55:07 [LIST: dev ] x y".toList)).getD 5 [] ↔
        (AdsMuttIndexFormatCustom2._RE_EXPECTED_PATTERN.FindStringSubmatch
          "5 N [S:2015-10-26 12:55:52] 2015-10-26 12:55:07 [LIST: dev ] x y".toList).getD 3 [] =
        (AdsMuttIndexFormatCustom2._RE_EXPECTED_PATTERN.FindStringSubmatch
          "5 N [S:2015-10-26 12:55:52] 2015-10-26 12:55:07 [LIST: dev ] x y".toList).getD 5 []) ∧
      ((AdsMuttIndexFormatCustom2._RE_EXPECTED_PATTERN.FindStringSubmatch
          "5 N [S:2015-10-26 12:55:52] 2015-10-26 12:55:07 [LIST: dev ] x y".toList).getD 3 [] =
          (AdsMuttIndexFormatCustom2._RE_EXPECTED_PATTERN.FindStringSubmatch
          "5 N [S:2015-10-26 12:55:52] 2015-10-26 12:55:07 [LIST: dev ] x y".toList).getD 5 [] →
        AdsMuttIndexFormatCustom2.main ["ads-mutt-index-format-custom2".toList,
          ("5 N [S:2015-10-26 12:55:".toList ++ "09".toList ++
            "] 2015-10-26 12:55:07 [LIST: dev ] x y".toList)] =
          AdsMuttIndexFormatCustom2.main ["ads-mutt-index-format-custom2".toList,
            "5 N [S:2015-10-26 12:55:52] 2015-10-26 12:55:07 [LIST: dev ] x y".toList])) ∧
    (MuttMsgSenderAndLocalDatetime2.RE_EXPECTED_PATTERN.FindStringSubmatch
        ("5 N [S:2015-10-26 12:55:".toList ++ "09".toList ++
            "] 2015-10-26 12:55:07 [LIST: dev ] x y".toList) ≠ [] ∧
      (∀ i, i ≠ 0 → i ≠ 4 →
        (MuttMsgSenderAndLocalDatetime2.RE_EXPECTED_PATTERN.FindStringSubmatch
          ("5 N [S:2015-10-26 12:55:".toList ++ "09".toList ++
            "] 2015-10-26 12:55:07 [LIST: dev ] x y".toList)).getD i [] =
        (MuttMsgSenderAndLocalDatetime2.RE_EXPECTED_PATTERN.FindStringSubmatch
          "5 N [S:2015-10-26 12:55:52] 2015-10-26 12:55:07 [LIST: dev ] x y".toList).getD i []) ∧
      (MuttMsgSenderAndLocalDatetime2.RE_EXPECTED_PATTERN.FindStringSubmatch
          ("5 N [S:2015-10-26 12:55:".toList ++ "09".toList ++
            "] 2015-10-26 12:55:07 [LIST: dev ] x y".toList)).getD 4 [] = ':' :: ("09".toList ++ ']' :: " ".toList) ∧
      ((MuttMsgSenderAndLocalDatetime2.RE_EXPECTED_PATTERN.FindStringSubmatch
          ("5 N [S:2015-10-26 12:55:".toList ++ "09".toList ++
            "] 2015-10-26 12:55:07 [LIST: dev ] x y".toList)).getD 3 [] =
        (MuttMsgSenderAndLocalDatetime2.RE_EXPECTED_PATTERN.FindStringSubmatch
          ("5 N [S:2015-10-26 12:55:".toList ++ "09".toList ++
            "] 2015-10-26 12:55:07 [LIST: dev ] x y".toList)).getD 5 [] ↔
        (MuttMsgSenderAndLocalDatetime2.RE_EXPECTED_PATTERN.FindStringSubmatch
          "5 N [S:2015-10-26 12:55:52] 2015-10-26 12:55:07 [LIST: dev ] x y".toList).getD 3 [] =
        (MuttMsgSenderAndLocalDatetime2.RE_EXPECTED_PATTERN.FindStringSubmatch
          "5 N [S:2015-10-26 12:55:52] 2015-10-26 12:55:07 [LIST: dev ] x y".toList).getD 5 []) ∧
      ((MuttMsgSenderAndLocalDatetime2.RE_EXPECTED_PATTERN.FindStringSubmatch
          "5 N [S:2015-10-26 12:55:52] 2015-10-26 12:55:07 [LIST: dev ] x y".toList).getD 3 [] =
          (MuttMsgSenderAndLocalDatetime2.RE_EXPECTED_PATTERN.FindStringSubmatch
          "5 N [S:2015-10-26 12:55:52] 2015-10-26 12:55:07 [LIST: dev ] x y".toList).getD 5 [] →
        MuttMsgSenderAndLocalDatetime2.main ["ads-mutt-index-format-custom2".toList,
          ("5 N [S:2015-10-26 12:55:".toList ++ "09".toList ++
            "] 2015-10-26 12:55:07 [LIST: dev ] x y".toList)] =
          MuttMsgSenderAndLocalDatetime2.main ["ads-mutt-index-format-custom2".toList,
            "5 N [S:2015-10-26 12:55:52] 2015-10-26 12:55:07 [LIST: dev ] x y".toList])) ∧
    AdsMuttIndexFormatCustom2.main ["ads-mutt-index-format-custom2".toList,
        "5 N [S:2015-10-26 12:55:09] 2015-10-26 12:55:07 [LIST: dev ] x y".toList] =
      AdsMuttIndexFormatCustom2.main ["ads-mutt-index-format-custom2".toList,
        "5 N [S:2015-10-26 12:55:52] 2015-10-26 12:55:07 [LIST: dev ] x y".toList] ∧
    AdsMuttIndexFormatCustom2.main ["ads-mutt-index-format-custom2".toList,
        "5 N [S:2015-10-26 12:55:52] 2015-10-26 12:55:07 [LIST: dev ] x y".toList] =
      Outcome.exit 0 "5 N                         2015-10-26 12:55:07 [dev]   x y\n".toList :=
  ⟨(C13_seconds_ignored "ads-mutt-index-format-custom2".toList
      "5 N [S:2015-10-26 12:55:52] 2015-10-26 12:55:07 [LIST: dev ] x y".toList
      "5 N [S:2015-10-26 12:55:".toList "52".toList "09".toList
      "] 2015-10-26 12:55:07 [LIST: dev ] x y".toList " ".toList
      (by decide) (by decide) (by decide) (by decide)).1 (by decide) (by decide) (by decide),
   (C13_seconds_ignored "ads-mutt-index-format-custom2".toList
      "5 N [S:2015-10-26 12:55:52] 2015-10-26 12:55:07 [LIST: dev ] x y".toList
      "5 N [S:2015-10-26 12:55:".toList "52".toList "09".toList
      "] 2015-10-26 12:55:07 [LIST: dev ] x y".toList " ".toList
      (by decide) (by decide) (by decide) (by decide)).2.1 (by decide) (by decide) (by decide),
   by decide, by decide⟩
